import Mathlib

/-!
Verification development for the radish in-memory key-value store
(crates radish-types and radish-database).

The Rust sources are shallowly embedded: byte buffers (Vec<u8>) become
lists of naturals, i64 becomes Int with explicit two's-complement wrapping
where the source casts or can overflow, usize becomes Nat with explicit
mod 2^64 where the source can wrap (release-mode semantics), SystemTime
becomes a Nat counting microseconds since the epoch, and fallible Rust
code (panics: unwrap/expect on None or Err, remainder by zero, overflow
in `SystemTime + Duration`) is modelled by Option, with `none` standing
for a panic.  External effects are parameters: the wall clock, the random
number generator, the regex engine and f64 arithmetic live in a context
record so that every definition stays executable.

Storage is modelled sequentially: one command runs at a time, a
tokio RwLock guard is the access it grants, and the only observable
behaviour of the multi-lock protocol `lock_all` in this sequential model
is which guard ends up in which table and whether the final unwraps
succeed; the identity (memory address) of a container handle is modelled
by 1 + its position in the keyspace, with 0 reserved for the
"absent read slot" sentinel exactly as address 0 is in the source.
-/

namespace Radish

/-- Byte strings (Rust Vec<u8>); a byte is a Nat below 256. -/
abbrev Bytes := List Nat

/-- Keys are byte strings (radish_types::Key = Vec<u8>). -/
abbrev Key := Bytes

/-- radish_types::Value. Float is kept as its 64-bit pattern as in the
source; Error keeps its text. -/
inductive Value where
| nill : Value
| ok : Value
| bool (b : Bool) : Value
| integer (i : Int) : Value
| float (bits : Nat) : Value
| buffer (bs : Bytes) : Value
| array (items : List Value) : Value
| error (msg : String) : Value

mutual

/-- Structural equality on values (the derived PartialEq of the source);
mutual with elementwise equality of value lists. -/
def Value.beq : Value → Value → Bool
| Value.nill, Value.nill => true
| Value.ok, Value.ok => true
| Value.bool a, Value.bool b => a == b
| Value.integer a, Value.integer b => a == b
| Value.float a, Value.float b => a == b
| Value.buffer a, Value.buffer b => a == b
| Value.array a, Value.array b => Value.beqList a b
| Value.error a, Value.error b => a == b
| _, _ => false

def Value.beqList : List Value → List Value → Bool
| [], [] => true
| x :: xs, y :: ys => Value.beq x y && Value.beqList xs ys
| _, _ => false

end

instance : BEq Value := ⟨Value.beq⟩

/-- radish_types::Arguments = VecDeque<Value>; pop_front is head. -/
abbrev Arguments := List Value

/-- Container payload plus optional absolute expiration (microseconds). -/
structure ContainerImpl (α : Type) where
  inner : α
  expiration_time : Option Nat

/-- The four container kinds.  IndexSet keeps insertion order, so a set is
a duplicate-free list; IndexMap is a duplicate-free association list. -/
inductive Container where
| set (c : ContainerImpl (List Value)) : Container
| list (c : ContainerImpl (List Value)) : Container
| hash (c : ContainerImpl (List (Value × Value))) : Container
| strings (c : ContainerImpl Bytes) : Container

/-- The storage state: the keyspace (IndexMap, key order = insertion
order), the expiration queue (BTreeMap timestamp -> set of keys, kept
sorted by timestamp), and the trace of timestamps handed to the awaker. -/
structure Storage where
  containers : List (Key × Container)
  expires_queue : List (Nat × List Key)
  awoken : List Nat

/-- External collaborators of the storage layer, as parameters: the clock
(microseconds since the epoch), the random generator (value of the i-th
rand call of the running handler), the regex engine (compile may fail;
a compiled regex is a byte-matcher), f64 addition and display on bit
patterns, and the cargo package metadata the system commands print. -/
structure Ctx where
  now : Nat
  rand : Nat → Nat
  regex_new : Bytes → Except String (Bytes → Bool)
  f64_add : Nat → Nat → Nat
  f64_str : Nat → String
  pkg_name : Option String
  pkg_authors : Option String
  pkg_version : Option String
  pkg_license : Option String
  pkg_repository : Option String

/-- Handler computations: given the context and the state they either
panic (none) or produce a Result together with the updated state. -/
def M (α : Type) : Type := Ctx → Storage → Option (Except String α × Storage)

instance : Monad M where
  pure a := fun _ s => some (Except.ok a, s)
  bind m f := fun c s =>
    match m c s with
    | none => none
    | some (Except.error e, s1) => some (Except.error e, s1)
    | some (Except.ok a, s1) => f a c s1

/-- Rust: return Err(e). -/
def throwM {α : Type} (e : String) : M α := fun _ s => some (Except.error e, s)

/-- Rust: a panic (unwrap on None/Err, % 0, ...). -/
def panicM {α : Type} : M α := fun _ _ => none

/-- Read the current storage state. -/
def getS : M Storage := fun _ s => some (Except.ok s, s)

/-- Replace the storage state. -/
def setS (s : Storage) : M Unit := fun _ _ => some (Except.ok (), s)

/-- Read the external context. -/
def askC : M Ctx := fun c s => some (Except.ok c, s)

/-- Lift a pure Result (the ? operator on extractor calls). -/
def liftE {α : Type} (x : Except String α) : M α := fun _ s => some (x, s)

/-! ### Small machine-integer helpers -/

/-- Two's-complement reinterpretation of the low 64 bits of a Nat as i64
(Rust `x as i64` on u64/u128 values). -/
def i64_cast_of_nat (n : Nat) : Int :=
  let m : Nat := n % 2 ^ 64
  if m < 2 ^ 63 then (m : Int) else (m : Int) - 2 ^ 64

/-- Rust `i as u64` / `i as usize` on an i64: two's-complement wrap. -/
def usize_of_i64 (i : Int) : Nat := (i % (2 : Int) ^ 64).toNat

/-- Release-mode wrapping addition of i64 values. -/
def wrap64 (i : Int) : Int := (i + 2 ^ 63) % 2 ^ 64 - 2 ^ 63

/-! ### ASCII and UTF-8 helpers -/

/-- Bytes of an ASCII string literal. -/
def ascii (s : String) : Bytes := s.data.map Char.toNat

/-- Byte-wise ASCII uppercasing.  Rust str::to_uppercase is the Unicode
mapping; the two agree on ASCII, which covers every name the dispatcher
and the option parsers compare against. -/
def upByte (b : Nat) : Nat := if 97 ≤ b ∧ b ≤ 122 then b - 32 else b

/-- Uppercase a byte string (model of to_uppercase, ASCII fragment). -/
def toUpperBytes (bs : Bytes) : Bytes := bs.map upByte

/-- Byte-wise ASCII lowercasing (model of to_lowercase, ASCII fragment). -/
def loByte (b : Nat) : Nat := if 65 ≤ b ∧ b ≤ 90 then b + 32 else b

/-- Lowercase a byte string. -/
def toLowerBytes (bs : Bytes) : Bytes := bs.map loByte

/-- Whether a byte is a UTF-8 continuation byte. -/
def utf8Cont (b : Nat) : Bool := decide (128 ≤ b ∧ b ≤ 191)

/-- UTF-8 validity of a byte string (std::str::from_utf8 succeeds). -/
def validUtf8 : Bytes → Bool
| [] => true
| b :: rest =>
  if b < 128 then validUtf8 rest
  else if 194 ≤ b ∧ b ≤ 223 then
    match rest with
    | c1 :: r => utf8Cont c1 && validUtf8 r
    | [] => false
  else if b = 224 then
    match rest with
    | c1 :: c2 :: r => decide (160 ≤ c1 ∧ c1 ≤ 191) && utf8Cont c2 && validUtf8 r
    | _ => false
  else if 225 ≤ b ∧ b ≤ 236 then
    match rest with
    | c1 :: c2 :: r => utf8Cont c1 && utf8Cont c2 && validUtf8 r
    | _ => false
  else if b = 237 then
    match rest with
    | c1 :: c2 :: r => decide (128 ≤ c1 ∧ c1 ≤ 159) && utf8Cont c2 && validUtf8 r
    | _ => false
  else if 238 ≤ b ∧ b ≤ 239 then
    match rest with
    | c1 :: c2 :: r => utf8Cont c1 && utf8Cont c2 && validUtf8 r
    | _ => false
  else if b = 240 then
    match rest with
    | c1 :: c2 :: c3 :: r => decide (144 ≤ c1 ∧ c1 ≤ 191) && utf8Cont c2 && utf8Cont c3 && validUtf8 r
    | _ => false
  else if 241 ≤ b ∧ b ≤ 243 then
    match rest with
    | c1 :: c2 :: c3 :: r => utf8Cont c1 && utf8Cont c2 && utf8Cont c3 && validUtf8 r
    | _ => false
  else if b = 244 then
    match rest with
    | c1 :: c2 :: c3 :: r => decide (128 ≤ c1 ∧ c1 ≤ 143) && utf8Cont c2 && utf8Cont c3 && validUtf8 r
    | _ => false
  else false

/-- Display a byte string as Latin-1 text; exact for the ASCII payloads
that ever reach an error message. -/
def strOfBytes (bs : Bytes) : String := String.mk (bs.map Char.ofNat)

/-- Rust Debug of a byte slice: "[1, 2, 3]". -/
def debugBytes (bs : Bytes) : String :=
  "[" ++ String.intercalate ", " (bs.map (fun b => toString b)) ++ "]"

/-! ### Display and Debug of values

Value implements Display (radish-types lib.rs) and a derived Debug; the
scan commands format non-buffer values through Display before matching.
Debug of a VecDeque prints "[a, b]" with the elements' Debug form. -/

mutual

/-- Derived Debug of Value (used by Display for Buffer and Array). -/
def debugValue (c : Ctx) : Value → String
| Value.nill => "Nill"
| Value.ok => "Ok"
| Value.bool b => if b then "Bool(true)" else "Bool(false)"
| Value.integer i => "Integer(" ++ toString i ++ ")"
| Value.float n => "Float(" ++ toString n ++ ")"
| Value.buffer bs => "Buffer(" ++ debugBytes bs ++ ")"
| Value.array vs => "Array([" ++ String.intercalate ", " (debugValueList c vs) ++ "])"
| Value.error m => "Error(" ++ toString m ++ ")"

/-- Debug forms of a list of values. -/
def debugValueList (c : Ctx) : List Value → List String
| [] => []
| v :: vs => debugValue c v :: debugValueList c vs

end

/-- Display of Value (radish-types lib.rs): Buffer and Array fall back to
the Debug form of their payloads, Float displays the decoded f64. -/
def displayValue (c : Ctx) : Value → String
| Value.nill => "nill"
| Value.ok => "ok"
| Value.bool b => if b then "true" else "false"
| Value.integer i => toString i
| Value.float n => c.f64_str n
| Value.buffer bs => debugBytes bs
| Value.array vs => "[" ++ String.intercalate ", " (debugValueList c vs) ++ "]"
| Value.error m => m

/-! ### Argument extractors (container.rs) -/

/-- extract: the argument must be present. -/
def extract (arg : Option Value) : Except String Value :=
  match arg with
  | some a => Except.ok a
  | none => Except.error "Not enough arguments"

/-- extract_buffer: the argument must be a Buffer. -/
def extract_buffer (arg : Option Value) : Except String Bytes :=
  match extract arg with
  | Except.error e => Except.error e
  | Except.ok (Value.buffer k) => Except.ok k
  | Except.ok _ => Except.error "Unexpected buffer type"

/-- extract_string: a Buffer that is valid UTF-8.  The model keeps the
bytes instead of decoding; the Rust error text embeds the Utf8Error, here
abbreviated. -/
def extract_string (arg : Option Value) : Except String Bytes :=
  match extract_buffer arg with
  | Except.error e => Except.error e
  | Except.ok b =>
    if validUtf8 b then Except.ok b
    else Except.error "Failed to extract string: invalid utf-8 sequence"

/-- extract_key: a Buffer taken as a Key. -/
def extract_key (arg : Option Value) : Except String Key :=
  match extract arg with
  | Except.error e => Except.error e
  | Except.ok (Value.buffer k) => Except.ok k
  | Except.ok _ => Except.error "Unexpected key type"

/-- extract_integer: an Integer as i64. -/
def extract_integer (arg : Option Value) : Except String Int :=
  match extract arg with
  | Except.error e => Except.error e
  | Except.ok (Value.integer i) => Except.ok i
  | Except.ok _ => Except.error "Unexpected index type"

/-- extract_unsigned_integer: an Integer reinterpreted as u64 (`i as u64`,
a two's-complement wrap). -/
def extract_unsigned_integer (arg : Option Value) : Except String Nat :=
  match extract arg with
  | Except.error e => Except.error e
  | Except.ok (Value.integer i) => Except.ok (usize_of_i64 i)
  | Except.ok _ => Except.error "Unexpected index type"

/-- extract_float: a Float, kept as its bit pattern. -/
def extract_float (arg : Option Value) : Except String Nat :=
  match extract arg with
  | Except.error e => Except.error e
  | Except.ok (Value.float n) => Except.ok n
  | Except.ok _ => Except.error "Unexpected index type"

/-- extract_index: a non-negative Integer fitting usize (num::cast). -/
def extract_index (arg : Option Value) : Except String Nat :=
  match extract arg with
  | Except.error e => Except.error e
  | Except.ok (Value.integer i) =>
    if 0 ≤ i then Except.ok i.toNat
    else Except.error "Index is out of range: [0; 18446744073709551615]"
  | Except.ok _ => Except.error "Unexpected index type"

/-- extract_bit: a Bool, or an Integer that is 0 or 1. -/
def extract_bit (arg : Option Value) : Except String Bool :=
  match extract arg with
  | Except.error e => Except.error e
  | Except.ok (Value.bool b) => Except.ok b
  | Except.ok (Value.integer 0) => Except.ok false
  | Except.ok (Value.integer 1) => Except.ok true
  | Except.ok (Value.integer _) => Except.error "Unexpected bit value"
  | Except.ok _ => Except.error "Unexpected bit type"

/-! ### Decimal i64 parsing and formatting (strings.rs inner_parse and
format!).  str::parse::<i64> accepts an optional sign followed by one or
more ASCII digits and rejects overflow. -/

/-- Accumulate decimal digits left to right. -/
def decAccum : Bytes → Nat → Option Nat
| [], acc => some acc
| b :: rest, acc =>
  if 48 ≤ b ∧ b ≤ 57 then decAccum rest (acc * 10 + (b - 48))
  else none

/-- Rust str::parse::<i64> on a byte string already known valid UTF-8. -/
def parse_i64 (bs : Bytes) : Except String Int :=
  let (neg, digits) :=
    match bs with
    | 43 :: rest => (false, rest)
    | 45 :: rest => (true, rest)
    | rest => (false, rest)
  match digits with
  | [] => Except.error "cannot parse integer from empty string"
  | _ =>
    match decAccum digits 0 with
    | none => Except.error "invalid digit found in string"
    | some n =>
      if neg then
        if n ≤ 2 ^ 63 then Except.ok (-(n : Int))
        else Except.error "number too small to fit in target type"
      else
        if n ≤ 2 ^ 63 - 1 then Except.ok (n : Int)
        else Except.error "number too large to fit in target type"

/-- inner_parse::<i64>(cnt, def): empty buffer yields the default, else
UTF-8 decode and parse. -/
def inner_parse_i64 (cnt : Bytes) (dflt : Int) : Except String Int :=
  if cnt.length = 0 then Except.ok dflt
  else if validUtf8 cnt then parse_i64 cnt
  else Except.error "invalid utf-8 sequence"

/-- format!("\x7b\x7d", number) for an i64, as bytes. -/
def i64_to_bytes (i : Int) : Bytes := ascii (toString i)

/-! ### Keyspace primitives (an IndexMap from keys to containers).

IndexMap semantics of the indexmap crate: `insert` keeps the position of
an existing key and appends a new one; `remove` is swap_remove (the last
entry is moved into the hole); iteration follows positions. -/

/-- Position of a key in the keyspace. -/
def ksIdx? (ks : List (Key × Container)) (k : Key) : Option Nat :=
  ks.findIdx? (fun p => p.1 == k)

/-- Container stored under a key. -/
def ksFind? (ks : List (Key × Container)) (k : Key) : Option Container :=
  (ks.find? (fun p => p.1 == k)).map (fun p => p.2)

/-- Replace the container stored under an existing key, in place. -/
def ksSet (ks : List (Key × Container)) (k : Key) (c : Container) :
    List (Key × Container) :=
  ks.map (fun p => if p.1 == k then (p.1, c) else p)

/-- swap_remove of position i: the last element fills the hole. -/
def swapRemoveAt {α : Type} (l : List α) (i : Nat) : List α :=
  match l.getLast? with
  | none => l
  | some last => (l.set i last).dropLast

/-- IndexMap::remove (= swap_remove) by key: the removed container and
the remaining keyspace. -/
def ksSwapRemove (ks : List (Key × Container)) (k : Key) :
    Option Container × List (Key × Container) :=
  match ksIdx? ks k with
  | none => (none, ks)
  | some i =>
    match ks.get? i with
    | none => (none, ks)
    | some p => (some p.2, swapRemoveAt ks i)

/-- IndexMap::insert by key: replace in place or append. -/
def ksInsert (ks : List (Key × Container)) (k : Key) (c : Container) :
    List (Key × Container) :=
  match ksIdx? ks k with
  | some _ => ksSet ks k c
  | none => ks ++ [(k, c)]

/-! ### IndexSet and IndexMap of values (set.rs / hash.rs payloads) -/

/-- IndexSet::insert: append if new; true when actually inserted. -/
def isetInsert (s : List Value) (v : Value) : List Value × Bool :=
  if s.any (fun x => Value.beq x v) then (s, false) else (s ++ [v], true)

/-- IndexSet::remove (= swap_remove): true when the value was present. -/
def isetSwapRemove (s : List Value) (v : Value) : List Value × Bool :=
  match s.findIdx? (fun x => Value.beq x v) with
  | none => (s, false)
  | some i => (swapRemoveAt s i, true)

/-- IndexSet::swap_remove_index: the element and the shrunken set. -/
def isetSwapRemoveIdx (s : List Value) (i : Nat) :
    Option (Value × List Value) :=
  match s.get? i with
  | none => none
  | some v => some (v, swapRemoveAt s i)

/-- IndexMap::insert on a hash: replace the value in place or append. -/
def imapInsert (h : List (Value × Value)) (f v : Value) :
    List (Value × Value) :=
  if h.any (fun p => Value.beq p.1 f) then
    h.map (fun p => if Value.beq p.1 f then (p.1, v) else p)
  else h ++ [(f, v)]

/-- IndexMap::get on a hash. -/
def imapGet (h : List (Value × Value)) (f : Value) : Option Value :=
  (h.find? (fun p => Value.beq p.1 f)).map (fun p => p.2)

/-- IndexMap::remove (= swap_remove) on a hash. -/
def imapSwapRemove (h : List (Value × Value)) (f : Value) :
    List (Value × Value) × Bool :=
  match h.findIdx? (fun p => Value.beq p.1 f) with
  | none => (h, false)
  | some i => (swapRemoveAt h i, true)

/-! ### The expiration queue (expire.rs).

ExpireController holds a BTreeMap from timestamps to HashSets of keys,
modelled as an association list kept sorted by timestamp with
duplicate-free buckets. -/

/-- expire_key_at on the queue: entry(t).or_insert(empty).insert(key). -/
def btreeInsertKey (q : List (Nat × List Key)) (t : Nat) (k : Key) :
    List (Nat × List Key) :=
  match q with
  | [] => [(t, [k])]
  | (t0, ks) :: rest =>
    if t < t0 then (t, [k]) :: (t0, ks) :: rest
    else if t = t0 then (t0, if k ∈ ks then ks else ks ++ [k]) :: rest
    else (t0, ks) :: btreeInsertKey rest t k

/-- Flatten drained buckets into one duplicate-free key list; the source
pops bucket timestamps from the back of an ascending vector, so buckets
are visited latest first. -/
def flattenKeys (buckets : List (Nat × List Key)) : List Key :=
  buckets.reverse.foldl
    (fun acc p => p.2.foldl (fun a k => if k ∈ a then a else a ++ [k]) acc) []

/-- pop_now_and_expired_keys: pivot is now + 1 microsecond; split_off at
the pivot keeps the strictly-earlier prefix as the drained part (take and
drop of the sorted list mirror BTreeMap::split_off); returns
((pivot, drained keys), remaining queue). -/
def pop_now_and_expired_keys (now : Nat) (q : List (Nat × List Key)) :
    (Nat × List Key) × List (Nat × List Key) :=
  let pivot := now + 1
  let tail := q.dropWhile (fun p => p.1 < pivot)
  let expireds := q.takeWhile (fun p => p.1 < pivot)
  ((pivot, flattenKeys expireds), tail)

/-- Storage::expire_key_at: record the timestamp in the controller, then
invoke the awaker with it (the model keeps the trace of awaker calls). -/
def expire_key_at (key : Key) (timepoint : Nat) : M Unit := fun _ s =>
  some (Except.ok (),
    { s with
      expires_queue := btreeInsertKey s.expires_queue timepoint key
      awoken := s.awoken ++ [timepoint] })

/-! ### lock_all (keys.rs)

The observable content of lock_all in the sequential model: handle
identities (memory addresses in the source, here 1 + keyspace position,
0 reserved for the absent-read sentinel) are gathered into a BTreeMap
from identity to requested action, where a later insert for the same
identity replaces the earlier one; guards are then taken per action into
two tables, and finally collected back in the caller's request order,
where each collection unwraps a HashMap::remove and panics if the guard
is missing.  A guard is modelled by the identity it protects. -/

inductive RwAction where
| writeL : RwAction
| readL : RwAction
deriving DecidableEq

/-- BTreeMap::insert into the identity-to-action map (kept sorted by
identity; an existing entry is replaced). -/
def btreeActInsert : List (Nat × RwAction) → Nat → RwAction →
    List (Nat × RwAction)
| [], a, act => [(a, act)]
| (b, x) :: rest, a, act =>
  if a < b then (a, act) :: (b, x) :: rest
  else if a = b then (a, act) :: rest
  else (b, x) :: btreeActInsert rest a act

/-- HashMap::remove of a guard: the guard if present, and the rest. -/
def hmRemove (m : List Nat) (a : Nat) : Option Nat × List Nat :=
  if a ∈ m then (some a, m.erase a) else (none, m)

/-- Collect write guards in request order; `.unwrap()` on a missing
guard is a panic. -/
def collectWrites : List Nat → List Nat → Option (List Nat × List Nat)
| [], gw => some ([], gw)
| a :: rest, gw =>
  match hmRemove gw a with
  | (none, _) => none
  | (some g, gw1) =>
    match collectWrites rest gw1 with
    | none => none
    | some (gs, gw2) => some (g :: gs, gw2)

/-- Collect read guards in request order; identity 0 marks an absent
slot and yields none in the output, any other identity unwraps. -/
def collectReads : List Nat → List Nat →
    Option (List (Option Nat) × List Nat)
| [], gr => some ([], gr)
| a :: rest, gr =>
  if a = 0 then
    match collectReads rest gr with
    | none => none
    | some (gs, gr1) => some (none :: gs, gr1)
  else
    match hmRemove gr a with
    | (none, _) => none
    | (some g, gr1) =>
      match collectReads rest gr1 with
      | none => none
      | some (gs, gr2) => some (some g :: gs, gr2)

/-- lock_all on handle identities: build the action map (writes first,
then reads, so a read for an identity already requested as a write
replaces the write entry), acquire guards in ascending identity order
into the two guard tables, then hand guards back in the caller's
original request order; a missing guard at that stage is a panicking
unwrap, modelled by none. -/
def lock_all (writes : List Nat) (reads : List (Option Nat)) :
    Option (List Nat × List (Option Nat)) :=
  let locks : List (Nat × RwAction) :=
    writes.foldl (fun m a => btreeActInsert m a RwAction.writeL) []
  let locks : List (Nat × RwAction) :=
    reads.foldl (fun m r =>
      match r with
      | none => m
      | some a => btreeActInsert m a RwAction.readL) locks
  let output_order_writes := writes
  let output_order_reads : List Nat :=
    reads.map (fun r => match r with | none => 0 | some a => a)
  let guard_writes : List Nat :=
    (locks.filter (fun p => p.2 = RwAction.writeL)).map (fun p => p.1)
  let guard_reads : List Nat :=
    (locks.filter (fun p => p.2 = RwAction.readL)).map (fun p => p.1)
  match collectWrites output_order_writes guard_writes with
  | none => none
  | some (ws, _) =>
    match collectReads output_order_reads guard_reads with
    | none => none
    | some (rs, _) => some (ws, rs)

/-! ### Container factories and unwraps -/

/-- ContainerImpl::new for a strings container. -/
def newStrings : Container := Container.strings { inner := [], expiration_time := none }

/-- ContainerImpl::new for a list container. -/
def newList : Container := Container.list { inner := [], expiration_time := none }

/-- ContainerImpl::new for a set container. -/
def newSet : Container := Container.set { inner := [], expiration_time := none }

/-- ContainerImpl::new for a hash container. -/
def newHash : Container := Container.hash { inner := [], expiration_time := none }

/-- strings_unwrap_container / strings_unwrap_mut_container. -/
def strings_unwrap : Container → Except String (ContainerImpl Bytes)
| Container.strings c => Except.ok c
| _ => Except.error "Unexpected container type"

/-- list_unwrap_container / list_unwrap_mut_container. -/
def list_unwrap : Container → Except String (ContainerImpl (List Value))
| Container.list c => Except.ok c
| _ => Except.error "Unexpected container type"

/-- set_unwrap_container / set_unwrap_mut_container. -/
def set_unwrap : Container → Except String (ContainerImpl (List Value))
| Container.set c => Except.ok c
| _ => Except.error "Unexpected container type"

/-- hash_unwrap_container / hash_unwrap_mut_container. -/
def hash_unwrap : Container → Except String (ContainerImpl (List (Value × Value)))
| Container.hash c => Except.ok c
| _ => Except.error "Unexpected container type"

/-- get_expiration_time / key_expiration (keys.rs): every container kind
exposes its expiration_time. -/
def containerExp : Container → Option Nat
| Container.set c => c.expiration_time
| Container.list c => c.expiration_time
| Container.hash c => c.expiration_time
| Container.strings c => c.expiration_time

/-- set_expiration_time (keys.rs). -/
def containerSetExp (c : Container) (t : Option Nat) : Container :=
  match c with
  | Container.set c => Container.set { c with expiration_time := t }
  | Container.list c => Container.list { c with expiration_time := t }
  | Container.hash c => Container.hash { c with expiration_time := t }
  | Container.strings c => Container.strings { c with expiration_time := t }

/-- type_to_string (keys.rs). -/
def type_to_string : Container → String
| Container.set _ => "set"
| Container.list _ => "list"
| Container.hash _ => "hash"
| Container.strings _ => "string"

/-! ### Handle acquisition (keys.rs get_container and friends).

A handle identity is 1 + the container's position in the keyspace; the
identity is only compared within one lock_all call, during which no
reordering happens, so it is a faithful stand-in for the memory address
of the lock cell. -/

/-- try_get_container: position of the key's handle, if present. -/
def try_get_id (key : Key) : M (Option Nat) := fun _ s =>
  some (Except.ok ((ksIdx? s.containers key).map (fun i => i + 1)), s)

/-- get_container: get-or-create under the map write lock; a created
container is appended to the keyspace. -/
def get_container_id (factory : Container) (key : Key) : M Nat := fun _ s =>
  match ksIdx? s.containers key with
  | some i => some (Except.ok (i + 1), s)
  | none =>
    some (Except.ok (s.containers.length + 1),
      { s with containers := s.containers ++ [(key, factory)] })

/-- get_containers: get-or-create each key in request order under one
map write lock. -/
def get_containers_ids (factory : Container) :
    List Key → M (List Nat)
| [] => pure []
| k :: rest => do
  let i ← get_container_id factory k
  let is ← get_containers_ids factory rest
  pure (i :: is)

/-- try_get_containers: optional positions, no creation. -/
def try_get_ids : List Key → M (List (Option Nat))
| [] => pure []
| k :: rest => do
  let i ← try_get_id k
  let is ← try_get_ids rest
  pure (i :: is)

/-- Container stored at a handle identity. -/
def idGet (s : Storage) (id : Nat) : Option (Key × Container) :=
  s.containers.get? (id - 1)

/-- Replace the container at a handle identity. -/
def idSet (s : Storage) (id : Nat) (c : Container) : Storage :=
  match s.containers.get? (id - 1) with
  | none => s
  | some p => { s with containers := s.containers.set (id - 1) (p.1, c) }

/-! ### Single-key lock paths.

The lock-and-process helpers of strings.rs / list.rs / set.rs / hash.rs:
get-or-create the container (this is where a missing key gains an empty
container even on read paths), lock it, unwrap the expected type (a
mismatch is an error, and the created container stays), process. -/

/-- strings_lock: read path over the inner buffer. -/
def strings_lock (key : Key)
    (processor : Bytes → Except String Value) : M Value := do
  let id ← get_container_id newStrings key
  let s ← getS
  match idGet s id with
  | none => panicM
  | some p =>
    match strings_unwrap p.2 with
    | Except.error e => throwM e
    | Except.ok ci => liftE (processor ci.inner)

/-- strings_lock_mut: write path; the processor returns the result and
the new buffer (expiration is untouched on this path). -/
def strings_lock_mut (key : Key)
    (processor : Bytes → Except String (Value × Bytes)) : M Value := do
  let id ← get_container_id newStrings key
  let s ← getS
  match idGet s id with
  | none => panicM
  | some p =>
    match strings_unwrap p.2 with
    | Except.error e => throwM e
    | Except.ok ci =>
      match processor ci.inner with
      | Except.error e => throwM e
      | Except.ok (v, inner1) => do
        setS (idSet s id (Container.strings { ci with inner := inner1 }))
        pure v

/-- list_lock: read path over the deque. -/
def list_lock (key : Key)
    (processor : List Value → Except String Value) : M Value := do
  let id ← get_container_id newList key
  let s ← getS
  match idGet s id with
  | none => panicM
  | some p =>
    match list_unwrap p.2 with
    | Except.error e => throwM e
    | Except.ok ci => liftE (processor ci.inner)

/-- list_lock_mut: write path over the deque. -/
def list_lock_mut (key : Key)
    (processor : List Value → Except String (Value × List Value)) : M Value := do
  let id ← get_container_id newList key
  let s ← getS
  match idGet s id with
  | none => panicM
  | some p =>
    match list_unwrap p.2 with
    | Except.error e => throwM e
    | Except.ok ci =>
      match processor ci.inner with
      | Except.error e => throwM e
      | Except.ok (v, inner1) => do
        setS (idSet s id (Container.list { ci with inner := inner1 }))
        pure v

/-- list_try_lock_mut: Nill when the key is absent, else the write path. -/
def list_try_lock_mut (key : Key)
    (processor : List Value → Except String (Value × List Value)) : M Value := do
  let oid ← try_get_id key
  match oid with
  | none => pure Value.nill
  | some id => do
    let s ← getS
    match idGet s id with
    | none => panicM
    | some p =>
      match list_unwrap p.2 with
      | Except.error e => throwM e
      | Except.ok ci =>
        match processor ci.inner with
        | Except.error e => throwM e
        | Except.ok (v, inner1) => do
          setS (idSet s id (Container.list { ci with inner := inner1 }))
          pure v

/-- set_lock: read path over the index set. -/
def set_lock (key : Key)
    (processor : List Value → Except String Value) : M Value := do
  let id ← get_container_id newSet key
  let s ← getS
  match idGet s id with
  | none => panicM
  | some p =>
    match set_unwrap p.2 with
    | Except.error e => throwM e
    | Except.ok ci => liftE (processor ci.inner)

/-- set_lock_mut: write path over the index set; the processor may panic
(SPOP's remainder by zero), hence the Option layer. -/
def set_lock_mut (key : Key)
    (processor : List Value → Option (Except String (Value × List Value))) : M Value := do
  let id ← get_container_id newSet key
  let s ← getS
  match idGet s id with
  | none => panicM
  | some p =>
    match set_unwrap p.2 with
    | Except.error e => throwM e
    | Except.ok ci =>
      match processor ci.inner with
      | none => panicM
      | some (Except.error e) => throwM e
      | some (Except.ok (v, inner1)) => do
        setS (idSet s id (Container.set { ci with inner := inner1 }))
        pure v

/-- hash_lock: read path over the field map. -/
def hash_lock (key : Key)
    (processor : List (Value × Value) → Except String Value) : M Value := do
  let id ← get_container_id newHash key
  let s ← getS
  match idGet s id with
  | none => panicM
  | some p =>
    match hash_unwrap p.2 with
    | Except.error e => throwM e
    | Except.ok ci => liftE (processor ci.inner)

/-- hash_lock_mut: write path over the field map; HSETNX's unwraps on
missing arguments can panic, hence the Option layer. -/
def hash_lock_mut (key : Key)
    (processor : List (Value × Value) → Option (Except String (Value × List (Value × Value)))) : M Value := do
  let id ← get_container_id newHash key
  let s ← getS
  match idGet s id with
  | none => panicM
  | some p =>
    match hash_unwrap p.2 with
    | Except.error e => throwM e
    | Except.ok ci =>
      match processor ci.inner with
      | none => panicM
      | some (Except.error e) => throwM e
      | some (Except.ok (v, inner1)) => do
        setS (idSet s id (Container.hash { ci with inner := inner1 }))
        pure v

/-! ### Multi-key lock paths -/

/-- Unwrap every write guard as a strings container, failing on the
first mismatch as the source loop does. -/
def unwrapStringsAll (s : Storage) :
    List Nat → Except String (List (ContainerImpl Bytes))
| [] => Except.ok []
| id :: rest =>
  match idGet s id with
  | none => Except.ok []
  | some p =>
    match strings_unwrap p.2 with
    | Except.error e => Except.error e
    | Except.ok ci =>
      match unwrapStringsAll s rest with
      | Except.error e => Except.error e
      | Except.ok cis => Except.ok (ci :: cis)

/-- Unwrap every read guard (absent slots stay none). -/
def unwrapStringsReads (s : Storage) :
    List (Option Nat) → Except String (List (Option (ContainerImpl Bytes)))
| [] => Except.ok []
| none :: rest =>
  match unwrapStringsReads s rest with
  | Except.error e => Except.error e
  | Except.ok cis => Except.ok (none :: cis)
| some id :: rest =>
  match idGet s id with
  | none => Except.ok []
  | some p =>
    match strings_unwrap p.2 with
    | Except.error e => Except.error e
    | Except.ok ci =>
      match unwrapStringsReads s rest with
      | Except.error e => Except.error e
      | Except.ok cis => Except.ok (some ci :: cis)

/-- Write the processed write containers back at their identities. -/
def writeBackStrings (s : Storage) (ids : List Nat)
    (cis : List (ContainerImpl Bytes)) : Storage :=
  match ids, cis with
  | id :: ids1, ci :: cis1 =>
    writeBackStrings (idSet s id (Container.strings ci)) ids1 cis1
  | _, _ => s

/-- strings_locks (strings.rs): get-or-create the write keys, try-get the
read keys, run lock_all over the handles (none is a panic), unwrap both
sides as strings containers, run the callback, write the mutated write
containers back.  The callback may panic (none). -/
def strings_locks (write_keys : List Key) (read_keys : List Key)
    (callback : List (ContainerImpl Bytes) → List (Option (ContainerImpl Bytes)) →
      Option (Except String (Value × List (ContainerImpl Bytes)))) : M Value := do
  let wids ← get_containers_ids newStrings write_keys
  let rids ← try_get_ids read_keys
  match lock_all wids rids with
  | none => panicM
  | some _ => do
    let s ← getS
    match unwrapStringsAll s wids with
    | Except.error e => throwM e
    | Except.ok ws =>
      match unwrapStringsReads s rids with
      | Except.error e => throwM e
      | Except.ok rs =>
        match callback ws rs with
        | none => panicM
        | some (Except.error e) => throwM e
        | some (Except.ok (v, ws1)) => do
          setS (writeBackStrings s wids ws1)
          pure v

/-- Unwrap every write guard as a set container. -/
def unwrapSetAll (s : Storage) :
    List Nat → Except String (List (ContainerImpl (List Value)))
| [] => Except.ok []
| id :: rest =>
  match idGet s id with
  | none => Except.ok []
  | some p =>
    match set_unwrap p.2 with
    | Except.error e => Except.error e
    | Except.ok ci =>
      match unwrapSetAll s rest with
      | Except.error e => Except.error e
      | Except.ok cis => Except.ok (ci :: cis)

/-- Write the processed set containers back at their identities. -/
def writeBackSets (s : Storage) (ids : List Nat)
    (cis : List (ContainerImpl (List Value))) : Storage :=
  match ids, cis with
  | id :: ids1, ci :: cis1 =>
    writeBackSets (idSet s id (Container.set ci)) ids1 cis1
  | _, _ => s

/-- set_lock_containers (set.rs): get-or-create all keys as sets, take
all locks as writes through lock_all, unwrap, run the callback, write
back. -/
def set_lock_containers (keys : List Key)
    (callback : List (ContainerImpl (List Value)) →
      Option (Except String (Value × List (ContainerImpl (List Value))))) : M Value := do
  let ids ← get_containers_ids newSet keys
  match lock_all ids [] with
  | none => panicM
  | some _ => do
    let s ← getS
    match unwrapSetAll s ids with
    | Except.error e => throwM e
    | Except.ok sets =>
      match callback sets with
      | none => panicM
      | some (Except.error e) => throwM e
      | some (Except.ok (v, sets1)) => do
        setS (writeBackSets s ids sets1)
        pure v

/-! ### Key management commands (keys.rs) -/

/-- keys_keys (KEYS pattern): regex-filter all keys.  The Utf8Error and
regex error texts are passed through from the engine. -/
def keys_keys (args : Arguments) : M Value := do
  let pattern ← liftE (extract_key args.head?)
  if validUtf8 pattern then do
    let c ← askC
    match c.regex_new pattern with
    | Except.error e => throwM e
    | Except.ok re => do
      let s ← getS
      pure (Value.array (((s.containers.map (fun p => p.1)).filter re).map Value.buffer))
  else throwM "invalid utf-8 sequence"

/-- EXISTS loop: keys are consumed while they extract; counting stops at
the first non-buffer argument. -/
def keys_exists_loop (ks : List (Key × Container)) : List Value → Int
| [] => 0
| Value.buffer k :: rest =>
  (if (ksIdx? ks k).isSome then 1 else 0) + keys_exists_loop ks rest
| _ :: _ => 0

/-- keys_exists (EXISTS k...): count of present keys. -/
def keys_exists (args : Arguments) : M Value := do
  let s ← getS
  pure (Value.integer (keys_exists_loop s.containers args))

/-- keys_now (NOW): wall-clock seconds since the epoch. -/
def keys_now (_args : Arguments) : M Value := do
  let c ← askC
  pure (Value.integer (Int.ofNat (c.now / 1000000)))

/-- keys_pnow (PNOW): wall-clock milliseconds since the epoch. -/
def keys_pnow (_args : Arguments) : M Value := do
  let c ← askC
  pure (Value.integer (Int.ofNat (c.now / 1000)))

/-- DEL loop: swap_remove every extractable key, counting hits. -/
def keys_del_loop : List Value → List (Key × Container) → Int →
    List (Key × Container) × Int
| [], ks, n => (ks, n)
| Value.buffer k :: rest, ks, n =>
  (match ksSwapRemove ks k with
   | (some _, ks1) => keys_del_loop rest ks1 (n + 1)
   | (none, ks1) => keys_del_loop rest ks1 n)
| _ :: _, ks, n => (ks, n)

/-- keys_del (DEL k...): count of removed keys. -/
def keys_del (args : Arguments) : M Value := do
  let s ← getS
  let r := keys_del_loop args s.containers 0
  setS { s with containers := r.1 }
  pure (Value.integer r.2)

/-- keys_rename (RENAME old new): swap_remove old, insert under new,
re-announce the container's expiration to the controller and awaker. -/
def keys_rename (args : Arguments) : M Value := do
  let key ← liftE (extract_key args.head?)
  let newkey ← liftE (extract_key (args.drop 1).head?)
  let s ← getS
  match ksSwapRemove s.containers key with
  | (none, _) => throwM ("key '" ++ debugBytes key ++ "' not found")
  | (some cnt, ks1) => do
    let timepoint := containerExp cnt
    setS { s with containers := ksInsert ks1 newkey cnt }
    match timepoint with
    | some t => do
      expire_key_at newkey t
      pure Value.ok
    | none => pure Value.ok

/-- check_type (keys.rs): the four container kind names. -/
def check_type (t : Bytes) : Except String Unit :=
  if t = ascii "set" ∨ t = ascii "list" ∨ t = ascii "hash" ∨ t = ascii "string"
  then Except.ok ()
  else Except.error ("Unexpected type '" ++ strOfBytes t ++ "'")

/-- keys_type (TYPE k...): per-key kind name or Nill; scalar for one
key, array otherwise, error when no key extracted. -/
def keys_type (args : Arguments) : M Value := do
  let keys := args.filterMap (fun a =>
    match extract_key (some a) with
    | Except.ok k => some k
    | Except.error _ => none)
  let s ← getS
  let types := keys.map (fun k =>
    match ksFind? s.containers k with
    | none => Value.nill
    | some c => Value.buffer (ascii (type_to_string c)))
  match types with
  | [] => throwM "TYPE key"
  | [t] => pure t
  | _ => pure (Value.array types)

/-- keys_expiration_time: -2 for an absent key, -1 without expiration,
else dur_to_i64 of the remaining duration, where duration_since in the
past is clamped to zero (Nat subtraction models unwrap_or(zero)). -/
def keys_expiration_time (args : Arguments) (dur_to_i64 : Nat → Int) : M Value := do
  let key ← liftE (extract_key args.head?)
  let s ← getS
  let c ← askC
  match ksFind? s.containers key with
  | none => pure (Value.integer (-2))
  | some cnt =>
    match containerExp cnt with
    | none => pure (Value.integer (-1))
    | some tm => pure (Value.integer (dur_to_i64 (tm - c.now)))

/-- keys_pttl (PTTL): remaining milliseconds, `as_millis() as i64`
truncating to the low 64 bits. -/
def keys_pttl (args : Arguments) : M Value :=
  keys_expiration_time args (fun us => i64_cast_of_nat (us / 1000))

/-- keys_ttl (TTL): remaining seconds, `as_secs() as i64`. -/
def keys_ttl (args : Arguments) : M Value :=
  keys_expiration_time args (fun us => i64_cast_of_nat (us / 1000000))

/-- keys_expire_impl: stamp the expiration on the container, then (after
dropping the container lock) register it with the controller. -/
def keys_expire_impl (key : Key) (timepoint : Nat) : M Value := do
  let s ← getS
  match ksFind? s.containers key with
  | none => pure (Value.bool false)
  | some c => do
    setS { s with containers := ksSet s.containers key (containerSetExp c (some timepoint)) }
    expire_key_at key timepoint
    pure (Value.bool true)

/-- keys_expire (EXPIRE k s): now + seconds. -/
def keys_expire (args : Arguments) : M Value := do
  let key ← liftE (extract_key args.head?)
  let seconds ← liftE (extract_unsigned_integer (args.drop 1).head?)
  let c ← askC
  keys_expire_impl key (c.now + seconds * 1000000)

/-- keys_expire_at (EXPIREAT k s): epoch + seconds. -/
def keys_expire_at (args : Arguments) : M Value := do
  let key ← liftE (extract_key args.head?)
  let seconds ← liftE (extract_unsigned_integer (args.drop 1).head?)
  keys_expire_impl key (seconds * 1000000)

/-- keys_pexpire (PEXPIRE k ms): now + milliseconds. -/
def keys_pexpire (args : Arguments) : M Value := do
  let key ← liftE (extract_key args.head?)
  let millis ← liftE (extract_unsigned_integer (args.drop 1).head?)
  let c ← askC
  keys_expire_impl key (c.now + millis * 1000)

/-- keys_pexpire_at (PEXPIREAT k ms): epoch + milliseconds. -/
def keys_pexpire_at (args : Arguments) : M Value := do
  let key ← liftE (extract_key args.head?)
  let millis ← liftE (extract_unsigned_integer (args.drop 1).head?)
  keys_expire_impl key (millis * 1000)

/-- Option parsing loop shared by SCAN (MATCH / COUNT / TYPE): arguments
are consumed while they extract as strings; a failing extraction ends the
loop silently, an unknown option is an error. -/
def keys_scan_opts : List Value → Option Bytes → Option Bytes → Nat →
    Except String (Option Bytes × Option Bytes × Nat)
| [], pat, kt, mc => Except.ok (pat, kt, mc)
| a :: rest, pat, kt, mc =>
  match extract_string (some a) with
  | Except.error _ => Except.ok (pat, kt, mc)
  | Except.ok sub =>
    let u := toUpperBytes sub
    if u = ascii "MATCH" then
      match rest with
      | [] => Except.error "Not enough arguments"
      | b :: rest2 =>
        match extract_string (some b) with
        | Except.error e => Except.error e
        | Except.ok p => keys_scan_opts rest2 (some p) kt mc
    else if u = ascii "COUNT" then
      match rest with
      | [] => Except.error "Not enough arguments"
      | b :: rest2 =>
        match extract_index (some b) with
        | Except.error e => Except.error e
        | Except.ok n => keys_scan_opts rest2 pat kt n
    else if u = ascii "TYPE" then
      match rest with
      | [] => Except.error "Not enough arguments"
      | b :: rest2 =>
        match extract_string (some b) with
        | Except.error e => Except.error e
        | Except.ok t => keys_scan_opts rest2 pat (some t) mc
    else Except.error ("Unexpected argument '" ++ strOfBytes sub ++ "'")

/-- SCAN iteration: walk positions i, i+1, ... for fuel steps; walking
off the end sets the next cursor to 0, otherwise it stays at the range
end; type and pattern filters only select the output keys. -/
def keys_scan_loop (re : Option (Bytes → Bool)) (kt : Option Bytes)
    (ks : List (Key × Container)) :
    Nat → Nat → Nat → List Key → Nat × List Key
| _, 0, endIdx, acc => (endIdx, acc)
| i, fuel + 1, endIdx, acc =>
  match ks.get? i with
  | none => (0, acc)
  | some p =>
    let typeOk :=
      match kt with
      | none => true
      | some t => t == ascii (type_to_string p.2)
    let patOk :=
      match re with
      | none => true
      | some r => r p.1
    keys_scan_loop re kt ks (i + 1) fuel endIdx
      (if typeOk && patOk then acc ++ [p.1] else acc)

/-- keys_scan (SCAN cursor [MATCH p] [COUNT n] [TYPE t]). -/
def keys_scan (args : Arguments) : M Value := do
  let start ← liftE (extract_index args.head?)
  match keys_scan_opts (args.drop 1) none none 100 with
  | Except.error e => throwM e
  | Except.ok (pat, kt, max_check) => do
    match kt with
    | some t =>
      (match check_type t with
       | Except.error e => throwM e
       | Except.ok _ => pure ())
    | none => pure ()
    let c ← askC
    let reC : Except String (Option (Bytes → Bool)) :=
      match pat with
      | none => Except.ok none
      | some p =>
        match c.regex_new p with
        | Except.error e => Except.error e
        | Except.ok r => Except.ok (some r)
    match reC with
    | Except.error e => throwM e
    | Except.ok re => do
      let s ← getS
      let endIdx := (start + max_check) % 2 ^ 64
      let r := keys_scan_loop re kt s.containers start (endIdx - start) endIdx []
      pure (Value.array
        [Value.integer (i64_cast_of_nat r.1),
         Value.array (r.2.map Value.buffer)])

/-! ### String commands (strings.rs) -/

inductive BitOperation where
| and : BitOperation
| or : BitOperation
| xor : BitOperation
| not : BitOperation

/-- FromStr for BitOperation: lowercase name. -/
def parseBitOperation (op : Bytes) : Except String BitOperation :=
  let l := toLowerBytes op
  if l = ascii "and" then Except.ok BitOperation.and
  else if l = ascii "or" then Except.ok BitOperation.or
  else if l = ascii "xor" then Except.ok BitOperation.xor
  else if l = ascii "not" then Except.ok BitOperation.not
  else Except.error ("Unsupported operation '" ++ strOfBytes op ++ "'")

/-- strings_append (APPEND): extend the buffer, return the new length. -/
def strings_append (args : Arguments) : M Value := do
  let key ← liftE (extract_key args.head?)
  let value ← liftE (extract_buffer (args.drop 1).head?)
  strings_lock_mut key (fun cnt =>
    Except.ok (Value.integer (Int.ofNat (cnt.length + value.length)), cnt ++ value))

/-- strings_get (GET): read through the multi-lock read path; an absent
key yields Nill without creating a container. -/
def strings_get (args : Arguments) : M Value := do
  let key ← liftE (extract_key args.head?)
  strings_locks [] [key] (fun _ rs =>
    match rs with
    | [] => none
    | r :: _ =>
      match r with
      | some cnt => some (Except.ok (Value.buffer cnt.inner, []))
      | none => some (Except.ok (Value.nill, [])))

/-- Option parsing loop of SET: KEEPTTL / XX / NX / EX s / PX ms; stops
silently on a non-string argument, errors on an unknown name. -/
def strings_set_opts (c : Ctx) : List Value → Bool → Option Nat → Option Bool →
    Except String (Bool × Option Nat × Option Bool)
| [], keepttl, expire, sie => Except.ok (keepttl, expire, sie)
| a :: rest, keepttl, expire, sie =>
  match extract_string (some a) with
  | Except.error _ => Except.ok (keepttl, expire, sie)
  | Except.ok sub =>
    let u := toUpperBytes sub
    if u = ascii "KEEPTTL" then strings_set_opts c rest true expire sie
    else if u = ascii "XX" then strings_set_opts c rest keepttl expire (some true)
    else if u = ascii "NX" then strings_set_opts c rest keepttl expire (some false)
    else if u = ascii "EX" then
      match rest with
      | [] => Except.error "Not enough arguments"
      | b :: rest2 =>
        match extract_unsigned_integer (some b) with
        | Except.error e => Except.error e
        | Except.ok secs =>
          strings_set_opts c rest2 keepttl (some (c.now + secs * 1000000)) sie
    else if u = ascii "PX" then
      match rest with
      | [] => Except.error "Not enough arguments"
      | b :: rest2 =>
        match extract_unsigned_integer (some b) with
        | Except.error e => Except.error e
        | Except.ok millis =>
          strings_set_opts c rest2 keepttl (some (c.now + millis * 1000)) sie
    else Except.error ("Unexpected argument '" ++ strOfBytes sub ++ "'")

/-- strings_set (SET key value opts...): a fresh container is built, its
expiration starts as None, `if !keepttl` clears that already-empty field
(so KEEPTTL never preserves anything), EX/PX overrides; the keyspace
entry is then inserted or replaced according to NX/XX, and on a
successful write with an expiration the controller is notified. -/
def strings_set (args : Arguments) : M Value := do
  let key ← liftE (extract_key args.head?)
  let value ← liftE (extract_buffer (args.drop 1).head?)
  let c ← askC
  match strings_set_opts c (args.drop 2) false none none with
  | Except.error e => throwM e
  | Except.ok (keepttl, expire, set_if_exists) => do
    let exp0 : Option Nat := none
    let exp1 : Option Nat := if ¬ keepttl then none else exp0
    let exp2 : Option Nat :=
      match expire with
      | some t => some t
      | none => exp1
    let cnt := Container.strings { inner := value, expiration_time := exp2 }
    let s ← getS
    let occupied := (ksIdx? s.containers key).isSome
    let goes : Bool :=
      match set_if_exists, occupied with
      | none, _ => true
      | some false, false => true
      | some true, true => true
      | _, _ => false
    if goes then do
      setS { s with containers := ksInsert s.containers key cnt }
      match expire with
      | some t => do
        expire_key_at key t
        pure Value.ok
      | none => pure Value.ok
    else pure Value.nill

/-- strings_setex_impl: overwrite buffer and expiration, then notify the
controller. -/
def strings_setex_impl (key : Key) (timepoint : Nat) (value : Bytes) : M Value := do
  let id ← get_container_id newStrings key
  let s ← getS
  match idGet s id with
  | none => panicM
  | some p =>
    match strings_unwrap p.2 with
    | Except.error e => throwM e
    | Except.ok _ => do
      setS (idSet s id (Container.strings { inner := value, expiration_time := some timepoint }))
      expire_key_at key timepoint
      pure Value.ok

/-- strings_setex (SETEX key s value). -/
def strings_setex (args : Arguments) : M Value := do
  let key ← liftE (extract_key args.head?)
  let seconds ← liftE (extract_unsigned_integer (args.drop 1).head?)
  let value ← liftE (extract_buffer (args.drop 2).head?)
  let c ← askC
  strings_setex_impl key (c.now + seconds * 1000000) value

/-- strings_psetex (PSETEX key ms value). -/
def strings_psetex (args : Arguments) : M Value := do
  let key ← liftE (extract_key args.head?)
  let millis ← liftE (extract_unsigned_integer (args.drop 1).head?)
  let value ← liftE (extract_buffer (args.drop 2).head?)
  let c ← askC
  strings_setex_impl key (c.now + millis * 1000) value

/-- strings_setnx (SETNX): insert only when the key is absent. -/
def strings_setnx (args : Arguments) : M Value := do
  let key ← liftE (extract_key args.head?)
  let value ← liftE (extract_buffer (args.drop 1).head?)
  let s ← getS
  match ksIdx? s.containers key with
  | some _ => pure (Value.bool false)
  | none => do
    setS { s with containers :=
      s.containers ++ [(key, Container.strings { inner := value, expiration_time := none })] }
    pure (Value.bool true)

/-- strings_getset (GETSET): swap buffers through the write multi-lock;
the source swaps into a captured variable and returns it after
unwrapping the lock result, so an inner type error panics; the model
carries the swapped-out buffer through the callback's value instead. -/
def strings_getset (args : Arguments) : M Value := do
  let key ← liftE (extract_key args.head?)
  let value ← liftE (extract_buffer (args.drop 1).head?)
  fun c s =>
    match (strings_locks [key] [] (fun ws _ =>
      match ws with
      | [] => none
      | ci :: _ =>
        some (Except.ok (Value.buffer ci.inner,
          [{ inner := value, expiration_time := none }]))) : M Value) c s with
    | none => none
    | some (Except.error _, _) => none
    | some (Except.ok v, s1) => some (Except.ok v, s1)

/-- strings_len (STRLEN). -/
def strings_len (args : Arguments) : M Value := do
  let key ← liftE (extract_key args.head?)
  strings_lock key (fun cnt => Except.ok (Value.integer (Int.ofNat cnt.length)))

/-- strings_incrby (INCR / INCRBY): parse the buffer as decimal i64
(empty is 0), add the step (default 1), write the decimal back.  The
addition wraps as in a release build. -/
def strings_incrby (args : Arguments) : M Value := do
  let key ← liftE (extract_key args.head?)
  let value :=
    match extract_integer (args.drop 1).head? with
    | Except.ok v => v
    | Except.error _ => 1
  strings_lock_mut key (fun cnt =>
    match inner_parse_i64 cnt 0 with
    | Except.error e => Except.error e
    | Except.ok number =>
      let number := wrap64 (number + value)
      Except.ok (Value.integer number, i64_to_bytes number))

/-- strings_decrby (DECR / DECRBY). -/
def strings_decrby (args : Arguments) : M Value := do
  let key ← liftE (extract_key args.head?)
  let value :=
    match extract_integer (args.drop 1).head? with
    | Except.ok v => v
    | Except.error _ => 1
  strings_lock_mut key (fun cnt =>
    match inner_parse_i64 cnt 0 with
    | Except.error e => Except.error e
    | Except.ok number =>
      let number := wrap64 (number - value)
      Except.ok (Value.integer number, i64_to_bytes number))

/-- strings_incrby_float (INCRBYFLOAT): the source parses and stores
decimal i64, exactly like INCRBY, including the integer default step. -/
def strings_incrby_float (args : Arguments) : M Value := do
  let key ← liftE (extract_key args.head?)
  let value :=
    match extract_integer (args.drop 1).head? with
    | Except.ok v => v
    | Except.error _ => 1
  strings_lock_mut key (fun cnt =>
    match inner_parse_i64 cnt 0 with
    | Except.error e => Except.error e
    | Except.ok number =>
      let number := wrap64 (number + value)
      Except.ok (Value.integer number, i64_to_bytes number))

/-- Population count of one byte (the BITCOUNTMAP table). -/
def bitcountByte (b : Nat) : Nat :=
  (List.range 8).foldl (fun acc i => acc + b / 2 ^ i % 2) 0

/-- strings_bitcount (BITCOUNT key [start end]): inclusive byte range
with negative-from-end indices; the index arithmetic goes through usize
casts that wrap. -/
def strings_bitcount (args : Arguments) : M Value := do
  let key ← liftE (extract_key args.head?)
  let start :=
    match extract_integer (args.drop 1).head? with
    | Except.ok v => v
    | Except.error _ => 0
  let endv :=
    match extract_integer (args.drop 2).head? with
    | Except.ok v => v
    | Except.error _ => -1
  strings_lock key (fun cnt =>
    let start1 := usize_of_i64 (if 0 ≤ start then start else Int.ofNat cnt.length + start)
    let end1 := (1 + usize_of_i64 (if 0 ≤ endv then endv else Int.ofNat cnt.length + endv)) % 2 ^ 64
    if start1 ≥ cnt.length ∨ start1 ≥ end1 then Except.ok (Value.integer 0)
    else
      Except.ok (Value.integer (Int.ofNat
        (((cnt.drop start1).take (end1 - start1)).foldl (fun a ch => a + bitcountByte ch) 0))))

/-- strings_mget (MGET): one multi-lock read acquisition; Nill per
absent key. -/
def strings_mget (args : Arguments) : M Value := do
  let keys := args.filterMap (fun a =>
    match extract_key (some a) with
    | Except.ok k => some k
    | Except.error _ => none)
  strings_locks [] keys (fun _ rs =>
    some (Except.ok (Value.array (rs.map (fun r =>
      match r with
      | some cnt => Value.buffer cnt.inner
      | none => Value.nill)), [])))

/-- MSET argument pairing: while more than one argument remains, a
non-buffer key is consumed and skipped, a bad value is an error. -/
def mset_pairs : List Value → Except String (List Key × List Bytes)
| [] => Except.ok ([], [])
| [_] => Except.ok ([], [])
| a :: b :: rest =>
  match extract_key (some a) with
  | Except.error _ => mset_pairs (b :: rest)
  | Except.ok k =>
    match extract_buffer (some b) with
    | Except.error e => Except.error e
    | Except.ok v =>
      match mset_pairs rest with
      | Except.error e => Except.error e
      | Except.ok r => Except.ok (k :: r.1, v :: r.2)

/-- strings_mset (MSET k v ...): overwrite every pair under the write
multi-lock, clearing expirations. -/
def strings_mset (args : Arguments) : M Value := do
  match mset_pairs args with
  | Except.error e => throwM e
  | Except.ok (keys, values) =>
    strings_locks keys [] (fun ws _ =>
      if ws.length = values.length then
        some (Except.ok (Value.ok,
          values.map (fun v => { inner := v, expiration_time := none })))
      else none)

/-- strings_bitop_not (BITOP NOT dst src): byte-wise complement
(!ch on u8 is 255 - ch). -/
def strings_bitop_not (args : Arguments) : M Value := do
  let dest ← liftE (extract_key args.head?)
  let src ← liftE (extract_key (args.drop 1).head?)
  strings_locks [dest] [src] (fun ws rs =>
    match ws with
    | [] => some (Except.error "BITOP NOT dst src")
    | _ :: _ =>
      match rs with
      | [] => some (Except.error "BITOP NOT dst src")
      | r :: _ =>
        let inner1 :=
          match r with
          | some srcC => srcC.inner.map (fun ch => 255 - ch)
          | none => []
        some (Except.ok (Value.integer (Int.ofNat inner1.length),
          [{ inner := inner1, expiration_time := none }])))

/-- One AND pass of BITOP: combine the first min_len bytes. -/
def bytesAnd (d : Bytes) (cbytes : Bytes) (minLen : Nat) : Bytes :=
  d.enum.map (fun pr =>
    if pr.1 < minLen then Nat.land pr.2 (cbytes.getD pr.1 0) else pr.2)

/-- One OR/XOR pass of BITOP: combine within the source's length. -/
def bytesOrXor (isOr : Bool) (d : Bytes) (cbytes : Bytes) : Bytes :=
  d.enum.map (fun pr =>
    if pr.1 < cbytes.length then
      (if isOr then Nat.lor pr.2 (cbytes.getD pr.1 0)
       else Nat.xor pr.2 (cbytes.getD pr.1 0))
    else pr.2)

/-- strings_bitop_cmn (BITOP AND/OR/XOR dst srcs...): destination is the
first source zero-padded to the longest source; AND folds up to the
shortest length (skipped entirely when some source is missing), OR/XOR
fold within each source's length. -/
def strings_bitop_cmn (op : BitOperation) (args : Arguments) : M Value := do
  let dest ← liftE (extract_key args.head?)
  let keys := (args.drop 1).filterMap (fun a =>
    match extract_key (some a) with
    | Except.ok k => some k
    | Except.error _ => none)
  strings_locks [dest] keys (fun ws rs =>
    let lens := rs.map (fun r =>
      match r with
      | none => 0
      | some cnt => cnt.inner.length)
    let max_len := lens.foldr max 0
    let min_len :=
      match lens with
      | [] => 0
      | l :: ls => ls.foldl min l
    match ws with
    | [] => some (Except.error "BITOP <OPERATION> dst src [[src]]")
    | _ :: _ =>
      match rs with
      | [] => some (Except.error "BITOP <OPERATION> dst src [[src]]")
      | src :: rest =>
        let base :=
          match src with
          | some cnt => cnt.inner
          | none => []
        let base := base ++ List.replicate (max_len - base.length) 0
        match op with
        | BitOperation.not => none
        | BitOperation.and =>
          let inner1 :=
            if 0 < min_len then
              rest.foldl (fun dacc r =>
                match r with
                | none => dacc
                | some cnt => bytesAnd dacc cnt.inner min_len) base
            else base
          some (Except.ok (Value.integer (Int.ofNat inner1.length),
            [{ inner := inner1, expiration_time := none }]))
        | BitOperation.or =>
          let inner1 := rest.foldl (fun dacc r =>
            match r with
            | none => dacc
            | some cnt => bytesOrXor true dacc cnt.inner) base
          some (Except.ok (Value.integer (Int.ofNat inner1.length),
            [{ inner := inner1, expiration_time := none }]))
        | BitOperation.xor =>
          let inner1 := rest.foldl (fun dacc r =>
            match r with
            | none => dacc
            | some cnt => bytesOrXor false dacc cnt.inner) base
          some (Except.ok (Value.integer (Int.ofNat inner1.length),
            [{ inner := inner1, expiration_time := none }])))

/-- strings_bitop (BITOP op ...). -/
def strings_bitop (args : Arguments) : M Value := do
  let opb ← liftE (extract_string args.head?)
  match parseBitOperation opb with
  | Except.error e => throwM e
  | Except.ok BitOperation.not => strings_bitop_not (args.drop 1)
  | Except.ok op => strings_bitop_cmn op (args.drop 1)

/-- strings_setbit (SETBIT key offset bit): the source guard is written
`offset >= 2^32`, and `^` in Rust is XOR, so the accepted range is
offset < 34; the bit addressed is bit (offset mod 8) of byte
(offset / 8), most significant bit first. -/
def strings_setbit (args : Arguments) : M Value := do
  let key ← liftE (extract_key args.head?)
  let offI ← liftE (extract_integer (args.drop 1).head?)
  let bit ← liftE (extract_bit (args.drop 2).head?)
  let offset := usize_of_i64 offI
  if offset ≥ 34 then throwM "offset is out of range [0; 2^32)"
  else
    let byte_index := offset / 8
    let bit_index := offset % 8
    let mask := Nat.shiftRight 128 bit_index
    strings_lock_mut key (fun cnt =>
      let cnt1 :=
        if byte_index ≥ cnt.length then
          cnt ++ List.replicate (1 + byte_index - cnt.length) 0
        else cnt
      let byte := cnt1.getD byte_index 0
      let original := Nat.land byte mask
      let byte1 := if bit then Nat.lor byte mask else Nat.land byte (255 - mask)
      Except.ok
        (if original = 0 then Value.bool false else Value.bool true,
         cnt1.set byte_index byte1))

/-- strings_getbit (GETBIT key offset): same 34 bound; out-of-buffer
offsets read false. -/
def strings_getbit (args : Arguments) : M Value := do
  let key ← liftE (extract_key args.head?)
  let offI ← liftE (extract_integer (args.drop 1).head?)
  let offset := usize_of_i64 offI
  if offset ≥ 34 then throwM "offset is out of range [0; 2^32)"
  else
    let byte_index := offset / 8
    let bit_index := offset % 8
    let mask := Nat.shiftRight 128 bit_index
    strings_lock key (fun cnt =>
      if byte_index ≥ cnt.length then Except.ok (Value.bool false)
      else
        let byte := cnt.getD byte_index 0
        let bit := Nat.land byte mask
        Except.ok (if bit = 0 then Value.bool false else Value.bool true))

/-- strings_get_range (GETRANGE key start end): inclusive range with
negative-from-end indices, empty on a degenerate range. -/
def strings_get_range (args : Arguments) : M Value := do
  let key ← liftE (extract_key args.head?)
  let start ← liftE (extract_integer (args.drop 1).head?)
  let endv ← liftE (extract_integer (args.drop 2).head?)
  strings_lock key (fun cnt =>
    let start1 := usize_of_i64 (if 0 ≤ start then start else Int.ofNat cnt.length + start)
    let end1 := (1 + usize_of_i64 (if 0 ≤ endv then endv else Int.ofNat cnt.length + endv)) % 2 ^ 64
    if start1 ≥ cnt.length ∨ start1 ≥ end1 then Except.ok (Value.buffer [])
    else Except.ok (Value.buffer ((cnt.drop start1).take (end1 - start1))))

/-- strings_set_range (SETRANGE key start value): zero-pad to start +
len(value) when needed, then overwrite that slice; returns the new
length. -/
def strings_set_range (args : Arguments) : M Value := do
  let key ← liftE (extract_key args.head?)
  let start ← liftE (extract_index (args.drop 1).head?)
  let value ← liftE (extract_buffer (args.drop 2).head?)
  let endIdx := start + value.length
  strings_lock_mut key (fun cnt =>
    let cnt1 :=
      if cnt.length < endIdx then cnt ++ List.replicate (endIdx - cnt.length) 0
      else cnt
    let cnt2 := cnt1.enum.map (fun pr =>
      if start ≤ pr.1 ∧ pr.1 < endIdx then value.getD (pr.1 - start) 0 else pr.2)
    Except.ok (Value.integer (Int.ofNat cnt2.length), cnt2))

/-! ### List commands (list.rs) -/

/-- list_len (LLEN). -/
def list_len (args : Arguments) : M Value := do
  let key ← liftE (extract_key args.head?)
  list_lock key (fun l => Except.ok (Value.integer (Int.ofNat l.length)))

/-- list_lpush (LPUSH): push_front each argument in order. -/
def list_lpush (args : Arguments) : M Value := do
  let key ← liftE (extract_key args.head?)
  list_lock_mut key (fun l =>
    let l1 := (args.drop 1).foldl (fun acc v => v :: acc) l
    Except.ok (Value.integer (Int.ofNat l1.length), l1))

/-- list_rpush (RPUSH): push_back each argument. -/
def list_rpush (args : Arguments) : M Value := do
  let key ← liftE (extract_key args.head?)
  list_lock_mut key (fun l =>
    let l1 := l ++ args.drop 1
    Except.ok (Value.integer (Int.ofNat l1.length), l1))

/-- list_lpushx (LPUSHX): Nill when the key is absent. -/
def list_lpushx (args : Arguments) : M Value := do
  let key ← liftE (extract_key args.head?)
  list_try_lock_mut key (fun l =>
    let l1 := (args.drop 1).foldl (fun acc v => v :: acc) l
    Except.ok (Value.integer (Int.ofNat l1.length), l1))

/-- list_rpushx (RPUSHX): Nill when the key is absent. -/
def list_rpushx (args : Arguments) : M Value := do
  let key ← liftE (extract_key args.head?)
  list_try_lock_mut key (fun l =>
    let l1 := l ++ args.drop 1
    Except.ok (Value.integer (Int.ofNat l1.length), l1))

/-- list_lpop (LPOP). -/
def list_lpop (args : Arguments) : M Value := do
  let key ← liftE (extract_key args.head?)
  list_lock_mut key (fun l =>
    match l with
    | [] => Except.ok (Value.nill, [])
    | v :: rest => Except.ok (v, rest))

/-- list_rpop (RPOP). -/
def list_rpop (args : Arguments) : M Value := do
  let key ← liftE (extract_key args.head?)
  list_lock_mut key (fun l =>
    match l.getLast? with
    | none => Except.ok (Value.nill, l)
    | some v => Except.ok (v, l.dropLast))

/-- list_rem (LREM key i): VecDeque::remove shifts the tail left;
out of range is an error. -/
def list_rem (args : Arguments) : M Value := do
  let key ← liftE (extract_key args.head?)
  let index ← liftE (extract_index (args.drop 1).head?)
  list_lock_mut key (fun l =>
    match l.get? index with
    | none => Except.error "Out of index"
    | some v => Except.ok (v, l.eraseIdx index))

/-- list_set (LSET key i v): replace in place, return the old element
(the source formats this error with a trailing CRLF). -/
def list_set (args : Arguments) : M Value := do
  let key ← liftE (extract_key args.head?)
  let index ← liftE (extract_index (args.drop 1).head?)
  let value ← liftE (extract (args.drop 2).head?)
  list_lock_mut key (fun l =>
    match l.get? index with
    | none => Except.error "Out of index\r\n"
    | some v => Except.ok (v, l.set index value))

/-- list_index (LINDEX key i). -/
def list_index (args : Arguments) : M Value := do
  let key ← liftE (extract_key args.head?)
  let index ← liftE (extract_index (args.drop 1).head?)
  list_lock key (fun l =>
    match l.get? index with
    | some v => Except.ok v
    | none => Except.error "Out of index\r\n")

/-- list_range (LRANGE key start stop): non-negative indices, both ends
clamped to the length, stop inclusive. -/
def list_range (args : Arguments) : M Value := do
  let key ← liftE (extract_key args.head?)
  let start ← liftE (extract_index (args.drop 1).head?)
  let stop ← liftE (extract_index (args.drop 2).head?)
  list_lock key (fun l =>
    let start1 := min start l.length
    let end1 := min (stop + 1) l.length
    Except.ok (Value.array ((l.drop start1).take (end1 - start1))))

/-- VecDeque::insert at a position (the position never exceeds the
length here). -/
def listInsertAt (l : List Value) (i : Nat) (v : Value) : List Value :=
  l.take i ++ [v] ++ l.drop i

/-- list_insert (LINSERT key BEFORE|AFTER pivot value): insert next to
the first element equal to the pivot, or report -1. -/
def list_insert (args : Arguments) : M Value := do
  let key ← liftE (extract_key args.head?)
  let before_after ← liftE (extract_string (args.drop 1).head?)
  let pivot ← liftE (extract (args.drop 2).head?)
  let value ← liftE (extract (args.drop 3).head?)
  list_lock_mut key (fun l =>
    let dir := toLowerBytes before_after
    if dir = ascii "before" ∨ dir = ascii "after" then
      let shift := if dir = ascii "before" then 0 else 1
      match l.findIdx? (fun v => Value.beq v pivot) with
      | some index =>
        let l1 := listInsertAt l (index + shift) value
        Except.ok (Value.integer (Int.ofNat l1.length), l1)
      | none => Except.ok (Value.integer (-1), l)
    else Except.error ("Unexpected direction " ++ strOfBytes dir))

/-- list_trim (LTRIM key start stop): negative indices relative to the
length (still-negative results wrap through the usize cast); degenerate
ranges clear the list, otherwise rotate_left and truncate keep the
inclusive slice. -/
def list_trim (args : Arguments) : M Value := do
  let key ← liftE (extract_key args.head?)
  let start ← liftE (extract_integer (args.drop 1).head?)
  let stop ← liftE (extract_integer (args.drop 2).head?)
  list_lock_mut key (fun l =>
    let start1 := usize_of_i64 (if start < 0 then Int.ofNat l.length + start else start)
    let start2 := min start1 l.length
    let stop1 := usize_of_i64 (if stop < 0 then Int.ofNat l.length + stop else stop)
    let stop2 := min stop1 l.length
    if start2 > stop2 ∨ start2 ≥ l.length then Except.ok (Value.ok, [])
    else if start2 > 0 then
      Except.ok (Value.ok, ((l.drop start2 ++ l.take start2).take (stop2 + 1 - start2)))
    else Except.ok (Value.ok, l.take (stop2 + 1)))

/-! ### Set commands (set.rs) -/

/-- set_card (SCARD). -/
def set_card (args : Arguments) : M Value := do
  let key ← liftE (extract_key args.head?)
  set_lock key (fun st => Except.ok (Value.integer (Int.ofNat st.length)))

/-- set_members (SMEMBERS). -/
def set_members (args : Arguments) : M Value := do
  let key ← liftE (extract_key args.head?)
  set_lock key (fun st => Except.ok (Value.array st))

/-- set_is_member (SISMEMBER). -/
def set_is_member (args : Arguments) : M Value := do
  let key ← liftE (extract_key args.head?)
  let member ← liftE (extract (args.drop 1).head?)
  set_lock key (fun st =>
    Except.ok (Value.integer (if st.any (fun x => Value.beq x member) then 1 else 0)))

/-- set_add (SADD): count of actually inserted members. -/
def set_add (args : Arguments) : M Value := do
  let key ← liftE (extract_key args.head?)
  set_lock_mut key (fun st =>
    let r := (args.drop 1).foldl (fun pr arg =>
      let q := isetInsert pr.1 arg
      (q.1, pr.2 + if q.2 then 1 else 0)) (st, (0 : Int))
    some (Except.ok (Value.integer r.2, r.1)))

/-- set_rem (SREM): count of actually removed members. -/
def set_rem (args : Arguments) : M Value := do
  let key ← liftE (extract_key args.head?)
  set_lock_mut key (fun st =>
    let r := (args.drop 1).foldl (fun pr arg =>
      let q := isetSwapRemove pr.1 arg
      (q.1, pr.2 + if q.2 then 1 else 0)) (st, (0 : Int))
    some (Except.ok (Value.integer r.2, r.1)))

/-- SPOP selection loop: count rounds of `rand % len` with swap-removal;
the remainder panics when the set is empty (len = 0). -/
def set_pop_loop (c : Ctx) : Nat → Nat → List Value → List Value →
    Option (List Value × List Value)
| _, 0, st, acc => some (acc, st)
| it, n + 1, st, acc =>
  if st.length = 0 then none
  else
    let index := c.rand it % st.length
    match isetSwapRemoveIdx st index with
    | none => set_pop_loop c (it + 1) n st acc
    | some r => set_pop_loop c (it + 1) n r.2 (acc ++ [r.1])

/-- set_pop (SPOP key [count]): random members, swap-removed; the count
defaults to 1 on a missing or non-index argument. -/
def set_pop (args : Arguments) : M Value := do
  let key ← liftE (extract_key args.head?)
  let count :=
    match extract_index (args.drop 1).head? with
    | Except.ok n => n
    | Except.error _ => 1
  let c ← askC
  set_lock_mut key (fun st =>
    match set_pop_loop c 0 count st [] with
    | none => none
    | some r => some (Except.ok (Value.array r.1, r.2)))

/-- set_move (SMOVE src dst member): both containers write-locked via
lock_all (the same key twice would panic there); 1 when the member
moved. -/
def set_move (args : Arguments) : M Value := do
  let source ← liftE (extract_key args.head?)
  let destination ← liftE (extract_key (args.drop 1).head?)
  let member ← liftE (extract (args.drop 2).head?)
  set_lock_containers [source, destination] (fun sets =>
    match sets with
    | [] => none
    | src :: rest =>
      let q := isetSwapRemove src.inner member
      if ¬ q.2 then some (Except.ok (Value.integer 0, sets))
      else
        match rest with
        | [] => none
        | dst :: _ =>
          let d1 := (isetInsert dst.inner member).1
          some (Except.ok (Value.integer 1,
            [{ src with inner := q.1 }, { dst with inner := d1 }])))

/-- Key list of the set-algebra commands: the first key is required, the
rest are taken while they extract. -/
def set_keys_rest : List Value → List Key
| [] => []
| a :: rest =>
  match extract_key (some a) with
  | Except.ok k => k :: set_keys_rest rest
  | Except.error _ => []

/-- First key plus the rest (set.rs argument loops). -/
def set_keys_args (args : List Value) : Except String (List Key) :=
  match extract_key args.head? with
  | Except.error e => Except.error e
  | Except.ok k => Except.ok (k :: set_keys_rest (args.drop 1))

/-- set_diff_make_iter: members of the first set absent from every
other; none models the panicking get(0).unwrap() on an empty deque. -/
def set_diff_list : List (ContainerImpl (List Value)) → Option (List Value)
| [] => none
| main :: rest =>
  some (main.inner.filter (fun v =>
    !(rest.any (fun st => st.inner.any (fun x => Value.beq x v)))))

/-- set_inter_make_iter: members of the first set present in every
other. -/
def set_inter_list : List (ContainerImpl (List Value)) → Option (List Value)
| [] => none
| main :: rest =>
  some (main.inner.filter (fun v =>
    !(rest.any (fun st => !(st.inner.any (fun x => Value.beq x v))))))

/-- set_union_make_iter: concatenation of all members. -/
def set_union_list (sets : List (ContainerImpl (List Value))) : List Value :=
  sets.foldl (fun acc st => acc ++ st.inner) []

/-- Deduplicate into a fresh IndexSet, preserving first occurrences. -/
def isetFromList (vs : List Value) : List Value :=
  vs.foldl (fun acc v => (isetInsert acc v).1) []

/-- set_diff (SDIFF). -/
def set_diff (args : Arguments) : M Value := do
  match set_keys_args args with
  | Except.error e => throwM e
  | Except.ok keys =>
    set_lock_containers keys (fun sets =>
      match set_diff_list sets with
      | none => none
      | some vs => some (Except.ok (Value.array vs, sets)))

/-- set_diff_store (SDIFFSTORE dst srcs...): pop the destination, build
the difference of the remaining sets into a temporary, swap it into the
destination and clear its expiration. -/
def set_diff_store (args : Arguments) : M Value := do
  match set_keys_args args with
  | Except.error e => throwM e
  | Except.ok keys =>
    set_lock_containers keys (fun sets =>
      match sets with
      | [] => none
      | _ :: rest =>
        match set_diff_list rest with
        | none => none
        | some vs =>
          let tmp := isetFromList vs
          some (Except.ok (Value.integer (Int.ofNat tmp.length),
            ({ inner := tmp, expiration_time := none } : ContainerImpl (List Value)) :: rest)))

/-- set_inter (SINTER). -/
def set_inter (args : Arguments) : M Value := do
  match set_keys_args args with
  | Except.error e => throwM e
  | Except.ok keys =>
    set_lock_containers keys (fun sets =>
      match set_inter_list sets with
      | none => none
      | some vs => some (Except.ok (Value.array vs, sets)))

/-- set_inter_store (SINTERSTORE). -/
def set_inter_store (args : Arguments) : M Value := do
  match set_keys_args args with
  | Except.error e => throwM e
  | Except.ok keys =>
    set_lock_containers keys (fun sets =>
      match sets with
      | [] => none
      | _ :: rest =>
        match set_inter_list rest with
        | none => none
        | some vs =>
          let tmp := isetFromList vs
          some (Except.ok (Value.integer (Int.ofNat tmp.length),
            ({ inner := tmp, expiration_time := none } : ContainerImpl (List Value)) :: rest)))

/-- set_union (SUNION): concatenate then deduplicate. -/
def set_union (args : Arguments) : M Value := do
  match set_keys_args args with
  | Except.error e => throwM e
  | Except.ok keys =>
    set_lock_containers keys (fun sets =>
      some (Except.ok (Value.array (isetFromList (set_union_list sets)), sets)))

/-- set_union_store (SUNIONSTORE). -/
def set_union_store (args : Arguments) : M Value := do
  match set_keys_args args with
  | Except.error e => throwM e
  | Except.ok keys =>
    set_lock_containers keys (fun sets =>
      match sets with
      | [] => none
      | _ :: rest =>
        let tmp := isetFromList (set_union_list rest)
        some (Except.ok (Value.integer (Int.ofNat tmp.length),
          ({ inner := tmp, expiration_time := none } : ContainerImpl (List Value)) :: rest)))

/-- MATCH / COUNT option loop shared by SSCAN and HSCAN. -/
def scan_match_count_opts : List Value → Option Bytes → Nat →
    Except String (Option Bytes × Nat)
| [], pat, mc => Except.ok (pat, mc)
| a :: rest, pat, mc =>
  match extract_string (some a) with
  | Except.error _ => Except.ok (pat, mc)
  | Except.ok sub =>
    let u := toUpperBytes sub
    if u = ascii "MATCH" then
      match rest with
      | [] => Except.error "Not enough arguments"
      | b :: rest2 =>
        match extract_string (some b) with
        | Except.error e => Except.error e
        | Except.ok p => scan_match_count_opts rest2 (some p) mc
    else if u = ascii "COUNT" then
      match rest with
      | [] => Except.error "Not enough arguments"
      | b :: rest2 =>
        match extract_index (some b) with
        | Except.error e => Except.error e
        | Except.ok n => scan_match_count_opts rest2 pat n
    else Except.error ("Unexpected argument '" ++ strOfBytes sub ++ "'")

/-- SSCAN iteration: buffers match on their bytes, other values on the
bytes of their Display form; walking off the end zeroes the cursor. -/
def set_scan_loop (c : Ctx) (re : Option (Bytes → Bool)) (st : List Value) :
    Nat → Nat → Nat → List Value → Nat × List Value
| _, 0, endIdx, acc => (endIdx, acc)
| i, fuel + 1, endIdx, acc =>
  match st.get? i with
  | none => (0, acc)
  | some v =>
    let keep :=
      match re with
      | none => true
      | some r =>
        match v with
        | Value.buffer bs => r bs
        | o => r (ascii (displayValue c o))
    set_scan_loop c re st (i + 1) fuel endIdx (if keep then acc ++ [v] else acc)

/-- set_scan (SSCAN key cursor [MATCH p] [COUNT n]). -/
def set_scan (args : Arguments) : M Value := do
  let key ← liftE (extract_key args.head?)
  let start ← liftE (extract_index (args.drop 1).head?)
  match scan_match_count_opts (args.drop 2) none 100 with
  | Except.error e => throwM e
  | Except.ok (pat, max_check) => do
    let c ← askC
    let reC : Except String (Option (Bytes → Bool)) :=
      match pat with
      | none => Except.ok none
      | some p =>
        match c.regex_new p with
        | Except.error e => Except.error e
        | Except.ok r => Except.ok (some r)
    match reC with
    | Except.error e => throwM e
    | Except.ok re =>
      set_lock key (fun st =>
        let endIdx := (start + max_check) % 2 ^ 64
        let r := set_scan_loop c re st start (endIdx - start) endIdx []
        Except.ok (Value.array
          [Value.integer (i64_cast_of_nat r.1), Value.array r.2]))

/-! ### Hash commands (hash.rs) -/

/-- HSET pair loop: while at least two arguments remain, insert the
pair (an existing field's value is replaced in place) and count it. -/
def hash_set_loop : List Value → List (Value × Value) → Int →
    List (Value × Value) × Int
| f :: v :: rest, h, n => hash_set_loop rest (imapInsert h f v) (n + 1)
| _, h, n => (h, n)

/-- hash_set (HSET / HMSET): count of pairs written. -/
def hash_set (args : Arguments) : M Value := do
  let key ← liftE (extract_key args.head?)
  hash_lock_mut key (fun h =>
    let r := hash_set_loop (args.drop 1) h 0
    some (Except.ok (Value.integer r.2, r.1)))

/-- hash_set_nx (HSETNX): field and value are unwrapped (missing
arguments panic), then inserted only into a vacant entry. -/
def hash_set_nx (args : Arguments) : M Value := do
  let key ← liftE (extract_key args.head?)
  hash_lock_mut key (fun h =>
    match args.drop 1 with
    | f :: v :: _ =>
      if h.any (fun p => Value.beq p.1 f) then
        some (Except.ok (Value.bool false, h))
      else some (Except.ok (Value.bool true, h ++ [(f, v)]))
    | _ => none)

/-- HDEL loop: swap_remove each named field, counting hits. -/
def hash_del_loop : List Value → List (Value × Value) → Int →
    List (Value × Value) × Int
| [], h, n => (h, n)
| f :: rest, h, n =>
  match imapSwapRemove h f with
  | (h1, true) => hash_del_loop rest h1 (n + 1)
  | (h1, false) => hash_del_loop rest h1 n

/-- hash_del (HDEL): count of removed fields. -/
def hash_del (args : Arguments) : M Value := do
  let key ← liftE (extract_key args.head?)
  hash_lock_mut key (fun h =>
    let r := hash_del_loop (args.drop 1) h 0
    some (Except.ok (Value.integer r.2, r.1)))

/-- hash_get (HGET key field). -/
def hash_get (args : Arguments) : M Value := do
  let key ← liftE (extract_key args.head?)
  let field ← liftE (extract (args.drop 1).head?)
  hash_lock key (fun h =>
    match imapGet h field with
    | none => Except.ok Value.nill
    | some v => Except.ok v)

/-- hash_mget (HMGET key fields...). -/
def hash_mget (args : Arguments) : M Value := do
  let key ← liftE (extract_key args.head?)
  hash_lock key (fun h =>
    Except.ok (Value.array ((args.drop 1).map (fun f =>
      match imapGet h f with
      | none => Value.nill
      | some v => v))))

/-- hash_get_all (HGETALL): alternating field, value. -/
def hash_get_all (args : Arguments) : M Value := do
  let key ← liftE (extract_key args.head?)
  hash_lock key (fun h =>
    Except.ok (Value.array (h.foldr (fun p acc => p.1 :: p.2 :: acc) [])))

/-- hash_exists (HEXISTS key field). -/
def hash_exists (args : Arguments) : M Value := do
  let key ← liftE (extract_key args.head?)
  let field ← liftE (extract (args.drop 1).head?)
  hash_lock key (fun h =>
    Except.ok (Value.bool (h.any (fun p => Value.beq p.1 field))))

/-- hash_keys (HKEYS). -/
def hash_keys (args : Arguments) : M Value := do
  let key ← liftE (extract_key args.head?)
  hash_lock key (fun h => Except.ok (Value.array (h.map (fun p => p.1))))

/-- hash_values (HVALUES). -/
def hash_values (args : Arguments) : M Value := do
  let key ← liftE (extract_key args.head?)
  hash_lock key (fun h => Except.ok (Value.array (h.map (fun p => p.2))))

/-- hash_len (HLEN). -/
def hash_len (args : Arguments) : M Value := do
  let key ← liftE (extract_key args.head?)
  hash_lock key (fun h => Except.ok (Value.integer (Int.ofNat h.length)))

/-- hash_strlen (HSTRLEN key field): buffer length, else Nill. -/
def hash_strlen (args : Arguments) : M Value := do
  let key ← liftE (extract_key args.head?)
  let field ← liftE (extract (args.drop 1).head?)
  hash_lock key (fun h =>
    match imapGet h field with
    | some (Value.buffer v) => Except.ok (Value.integer (Int.ofNat v.length))
    | _ => Except.ok Value.nill)

/-- hash_incrby (HINCRBY key field d): the field is created as
Integer 0 when absent; a non-Integer value is an error. -/
def hash_incrby (args : Arguments) : M Value := do
  let key ← liftE (extract_key args.head?)
  let field ← liftE (extract (args.drop 1).head?)
  let value ← liftE (extract_integer (args.drop 2).head?)
  hash_lock_mut key (fun h =>
    let h1 :=
      if h.any (fun p => Value.beq p.1 field) then h
      else h ++ [(field, Value.integer 0)]
    match imapGet h1 field with
    | some (Value.integer v) =>
      let v1 := wrap64 (v + value)
      some (Except.ok (Value.integer v1,
        h1.map (fun p => if Value.beq p.1 field then (p.1, Value.integer v1) else p)))
    | some _ => some (Except.error "Unexpected field type")
    | none => none)

/-- hash_incrbyfloat (HINCRBYFLOAT key field d): the field is created as
Float 0.0 when absent; f64 addition is performed on the bit patterns by
the context oracle. -/
def hash_incrbyfloat (args : Arguments) : M Value := do
  let key ← liftE (extract_key args.head?)
  let field ← liftE (extract (args.drop 1).head?)
  let value ← liftE (extract_float (args.drop 2).head?)
  let c ← askC
  hash_lock_mut key (fun h =>
    let h1 :=
      if h.any (fun p => Value.beq p.1 field) then h
      else h ++ [(field, Value.float 0)]
    match imapGet h1 field with
    | some (Value.float n) =>
      let n1 := c.f64_add n value
      some (Except.ok (Value.float n1,
        h1.map (fun p => if Value.beq p.1 field then (p.1, Value.float n1) else p)))
    | some _ => some (Except.error "Unexpected field type")
    | none => none)

/-- HSCAN iteration: `next` tracks the last examined index (not the
range end) and walking off the end zeroes it. -/
def hash_scan_loop (c : Ctx) (re : Option (Bytes → Bool))
    (h : List (Value × Value)) :
    Nat → Nat → Nat → List Value → Nat × List Value
| _, 0, next, acc => (next, acc)
| i, fuel + 1, _, acc =>
  match h.get? i with
  | none => (0, acc)
  | some p =>
    let keep :=
      match re with
      | none => true
      | some r =>
        match p.1 with
        | Value.buffer bs => r bs
        | o => r (ascii (displayValue c o))
    hash_scan_loop c re h (i + 1) fuel i (if keep then acc ++ [p.1] else acc)

/-- hash_scan (HSCAN key cursor [MATCH p] [COUNT n]). -/
def hash_scan (args : Arguments) : M Value := do
  let key ← liftE (extract_key args.head?)
  let start ← liftE (extract_index (args.drop 1).head?)
  match scan_match_count_opts (args.drop 2) none 100 with
  | Except.error e => throwM e
  | Except.ok (pat, max_check) => do
    let c ← askC
    let reC : Except String (Option (Bytes → Bool)) :=
      match pat with
      | none => Except.ok none
      | some p =>
        match c.regex_new p with
        | Except.error e => Except.error e
        | Except.ok r => Except.ok (some r)
    match reC with
    | Except.error e => throwM e
    | Except.ok re =>
      hash_lock key (fun h =>
        let endIdx := (start + max_check) % 2 ^ 64
        let r := hash_scan_loop c re h start (endIdx - start) start []
        Except.ok (Value.array
          [Value.integer (i64_cast_of_nat r.1), Value.array r.2]))

/-! ### System commands (system.rs) and the dispatcher (lib.rs) -/

/-- unimplemented handler. -/
def unimplemented (_args : Arguments) : M Value := throwM "Unimplemented"

/-- authors (AUTHORS). -/
def authors (_args : Arguments) : M Value := do
  let c ← askC
  pure (Value.buffer (ascii ((c.pkg_name.getD "Radish") ++ " copyright @ 2020 " ++
    (c.pkg_authors.getD "Dmitry Shatilov <shatilov dot diman at gmail dot com>"))))

/-- version (VERSION). -/
def version (_args : Arguments) : M Value := do
  let c ← askC
  pure (Value.buffer (ascii (c.pkg_version.getD "Custom")))

/-- license (LICENSE). -/
def license (_args : Arguments) : M Value := do
  let c ← askC
  pure (Value.buffer (ascii (c.pkg_license.getD "AGPL v.3")))

/-- help (HELP and the empty command). -/
def help (_args : Arguments) : M Value := do
  let c ← askC
  pure (Value.buffer (ascii ("Under construction. Please see " ++
    (c.pkg_repository.getD "internet") ++ " for help")))

/-- radish_types::Command: a textual name and the argument deque. -/
structure Command where
  command : Bytes
  arguments : Arguments

/-- The dispatch table of execute (lib.rs), in source order; the match
on the uppercased name takes the first hit. -/
def handlerTable : List (Bytes × (Arguments → M Value)) :=
  [ (ascii "NOW", keys_now),
    (ascii "PNOW", keys_pnow),
    (ascii "DEL", keys_del),
    (ascii "KEYS", keys_keys),
    (ascii "EXISTS", keys_exists),
    (ascii "RENAME", keys_rename),
    (ascii "DUMP", unimplemented),
    (ascii "EXPIRE", keys_expire),
    (ascii "EXPIREAT", keys_expire_at),
    (ascii "MIGRATE", unimplemented),
    (ascii "MOVE", unimplemented),
    (ascii "OBJECT", unimplemented),
    (ascii "PERSIST", unimplemented),
    (ascii "PEXPIRE", keys_pexpire),
    (ascii "PEXPIREAT", keys_pexpire_at),
    (ascii "PTTL", keys_pttl),
    (ascii "RANDOMKEY", unimplemented),
    (ascii "RENAMENX", unimplemented),
    (ascii "RESTORE", unimplemented),
    (ascii "SORT", unimplemented),
    (ascii "TOUCH", unimplemented),
    (ascii "TTL", keys_ttl),
    (ascii "TYPE", keys_type),
    (ascii "UNLINK", unimplemented),
    (ascii "WAIT", unimplemented),
    (ascii "SCAN", keys_scan),
    (ascii "APPEND", strings_append),
    (ascii "GET", strings_get),
    (ascii "GETSET", strings_getset),
    (ascii "STRLEN", strings_len),
    (ascii "BITCOUNT", strings_bitcount),
    (ascii "BITFIELD", unimplemented),
    (ascii "BITOP", strings_bitop),
    (ascii "BITPOS", unimplemented),
    (ascii "DECR", strings_decrby),
    (ascii "DECRBY", strings_decrby),
    (ascii "GETBIT", strings_getbit),
    (ascii "GETRANGE", strings_get_range),
    (ascii "INCR", strings_incrby),
    (ascii "INCRBY", strings_incrby),
    (ascii "INCRBYFLOAT", strings_incrby_float),
    (ascii "MGET", strings_mget),
    (ascii "MSET", strings_mset),
    (ascii "MSETNX", unimplemented),
    (ascii "PSETEX", strings_psetex),
    (ascii "SET", strings_set),
    (ascii "SETBIT", strings_setbit),
    (ascii "SETEX", strings_setex),
    (ascii "SETNX", strings_setnx),
    (ascii "SETRANGE", strings_set_range),
    (ascii "LLEN", list_len),
    (ascii "LPOP", list_lpop),
    (ascii "RPOP", list_rpop),
    (ascii "LREM", list_rem),
    (ascii "LSET", list_set),
    (ascii "LPUSH", list_lpush),
    (ascii "RPUSH", list_rpush),
    (ascii "LPUSHX", list_lpushx),
    (ascii "RPUSHX", list_rpushx),
    (ascii "LINDEX", list_index),
    (ascii "LRANGE", list_range),
    (ascii "LINSERT", list_insert),
    (ascii "LTRIM", list_trim),
    (ascii "RPOPLPUSH", unimplemented),
    (ascii "BRPOP", unimplemented),
    (ascii "BLPOP", unimplemented),
    (ascii "BRPOPLPUSH", unimplemented),
    (ascii "SADD", set_add),
    (ascii "SREM", set_rem),
    (ascii "SPOP", set_pop),
    (ascii "SSCAN", set_scan),
    (ascii "SCARD", set_card),
    (ascii "SMOVE", set_move),
    (ascii "SMEMBERS", set_members),
    (ascii "SISMEMBER", set_is_member),
    (ascii "SDIFF", set_diff),
    (ascii "SINTER", set_inter),
    (ascii "SUNION", set_union),
    (ascii "SDIFFSTORE", set_diff_store),
    (ascii "SINTERSTORE", set_inter_store),
    (ascii "SUNIONSTORE", set_union_store),
    (ascii "SRANDMEMBER", unimplemented),
    (ascii "HSET", hash_set),
    (ascii "HSETNX", hash_set_nx),
    (ascii "HDEL", hash_del),
    (ascii "HGET", hash_get),
    (ascii "HGETALL", hash_get_all),
    (ascii "HEXISTS", hash_exists),
    (ascii "HKEYS", hash_keys),
    (ascii "HVALUES", hash_values),
    (ascii "HLEN", hash_len),
    (ascii "HSTRLEN", hash_strlen),
    (ascii "HINCRBY", hash_incrby),
    (ascii "HINCRBYFLOAT", hash_incrbyfloat),
    (ascii "HMGET", hash_mget),
    (ascii "HMSET", hash_set),
    (ascii "HSCAN", hash_scan),
    (ascii "AUTHORS", authors),
    (ascii "VERSION", version),
    (ascii "LICENSE", license),
    (ascii "HELP", help),
    (ascii "", help) ]

/-- The uppercased names execute recognizes. -/
def supportedNames : List Bytes := handlerTable.map (fun p => p.1)

/-- execute (lib.rs): uppercase the name, run the matching handler or
produce the unsupported-command error, then wrap a handler Err as
Value::Error; a handler panic (none) escapes as none. -/
def execute (cmd : Command) : Ctx → Storage → Option (Value × Storage) :=
  fun c s =>
    let name := toUpperBytes cmd.command
    let result : Option (Except String Value × Storage) :=
      match handlerTable.find? (fun p => p.1 == name) with
      | none => some (Except.error "Unsupported command", s)
      | some p => p.2 cmd.arguments c s
    match result with
    | none => none
    | some (Except.ok r, s1) => some (r, s1)
    | some (Except.error e, s1) => some (Value.error e, s1)

/-! ### Concrete instances used by witnesses and counterexamples -/

/-- A concrete context: clock at a given microsecond timestamp, a zero
random stream, a regex engine that always fails to compile, trivial f64
oracles, no package metadata. -/
def ctxAt (t : Nat) : Ctx :=
  { now := t
    rand := fun _ => 0
    regex_new := fun _ => Except.error "regex unavailable"
    f64_add := fun a _ => a
    f64_str := fun _ => ""
    pkg_name := none
    pkg_authors := none
    pkg_version := none
    pkg_license := none
    pkg_repository := none }

/-- The concrete context at time zero. -/
def ctx0 : Ctx := ctxAt 0

/-- The empty storage every process starts from. -/
def storage0 : Storage := { containers := [], expires_queue := [], awoken := [] }

/-- A one-key storage. -/
def storage1 (k : Key) (c : Container) : Storage :=
  { containers := [(k, c)], expires_queue := [], awoken := [] }

/-! ### Evaluation lemmas for the handler monad and the keyspace -/

/-- Bind of the handler monad, unfolded. -/
theorem bind_def {α β : Type} (m : M α) (f : α → M β) (c : Ctx) (s : Storage) :
    (m >>= f) c s =
      match m c s with
      | none => none
      | some (Except.error e, s1) => some (Except.error e, s1)
      | some (Except.ok a, s1) => f a c s1 := rfl

/-- Pure of the handler monad, unfolded. -/
theorem pure_def {α : Type} (a : α) (c : Ctx) (s : Storage) :
    (pure a : M α) c s = some (Except.ok a, s) := rfl

/-- get? at the length of the left part of an append. -/
theorem get_append_len {α : Type} (l : List α) (a : α) :
    (l ++ [a]).get? l.length = some a := by
  induction l with
  | nil => rfl
  | cons x xs ih => simp [ih]

/-- set at the length of the left part of an append. -/
theorem set_append_len {α : Type} (l : List α) (a b : α) :
    (l ++ [a]).set l.length b = l ++ [b] := by
  induction l with
  | nil => rfl
  | cons x xs ih => simp [ih]

/-- get_container_id on an absent key creates and appends. -/
theorem get_container_id_absent (c : Ctx) (s : Storage) (k : Key) (f : Container)
    (habs : ksIdx? s.containers k = none) :
    get_container_id f k c s =
      some (Except.ok (s.containers.length + 1),
        { s with containers := s.containers ++ [(k, f)] }) := by
  unfold get_container_id
  rw [habs]

/-- get_container_id on a present key returns its position. -/
theorem get_container_id_present (c : Ctx) (s : Storage) (k : Key) (f : Container)
    (i : Nat) (hpos : ksIdx? s.containers k = some i) :
    get_container_id f k c s = some (Except.ok (i + 1), s) := by
  unfold get_container_id
  rw [hpos]

/-- idGet of a freshly appended container. -/
theorem idGet_concat (cs : List (Key × Container)) (eq : List (Nat × List Key))
    (aw : List Nat) (k : Key) (cnt : Container) :
    idGet { containers := cs ++ [(k, cnt)], expires_queue := eq, awoken := aw }
      (cs.length + 1) = some (k, cnt) := by
  simp [idGet, get_append_len]

/-- lock_all with one write handle and no reads always succeeds. -/
theorem lock_all_single (a : Nat) : lock_all [a] [] = some ([a], []) := by
  simp [lock_all, btreeActInsert, collectWrites, collectReads, hmRemove]

/-- strings_lock on an absent key: an empty strings container is created
and appended, and the processor runs on the empty buffer. -/
theorem strings_lock_absent (c : Ctx) (s : Storage) (k : Key)
    (f : Bytes → Except String Value)
    (habs : ksIdx? s.containers k = none) :
    strings_lock k f c s =
      some (f [], { s with containers := s.containers ++ [(k, newStrings)] }) := by
  unfold strings_lock
  rw [bind_def, get_container_id_absent c s k newStrings habs]
  dsimp only
  rw [bind_def]
  dsimp only [getS]
  rw [idGet_concat]
  rfl

/-- list_lock on an absent key. -/
theorem list_lock_absent (c : Ctx) (s : Storage) (k : Key)
    (f : List Value → Except String Value)
    (habs : ksIdx? s.containers k = none) :
    list_lock k f c s =
      some (f [], { s with containers := s.containers ++ [(k, newList)] }) := by
  unfold list_lock
  rw [bind_def, get_container_id_absent c s k newList habs]
  dsimp only
  rw [bind_def]
  dsimp only [getS]
  rw [idGet_concat]
  rfl

/-- set_lock on an absent key. -/
theorem set_lock_absent (c : Ctx) (s : Storage) (k : Key)
    (f : List Value → Except String Value)
    (habs : ksIdx? s.containers k = none) :
    set_lock k f c s =
      some (f [], { s with containers := s.containers ++ [(k, newSet)] }) := by
  unfold set_lock
  rw [bind_def, get_container_id_absent c s k newSet habs]
  dsimp only
  rw [bind_def]
  dsimp only [getS]
  rw [idGet_concat]
  rfl

/-- idGet at a successor identity is a plain positional lookup. -/
theorem idGet_succ (s : Storage) (i : Nat) : idGet s (i + 1) = s.containers.get? i := by
  simp [idGet]

/-- strings_locks with one write key that is absent: the key gains a
fresh empty strings container and the callback sees it; its updated
containers are written back at the appended position. -/
theorem strings_locks_write1_absent (c : Ctx) (s : Storage) (k : Key)
    (cb : List (ContainerImpl Bytes) → List (Option (ContainerImpl Bytes)) →
      Option (Except String (Value × List (ContainerImpl Bytes))))
    (habs : ksIdx? s.containers k = none) :
    strings_locks [k] [] cb c s =
      (match cb [{ inner := [], expiration_time := none }] [] with
       | none => none
       | some (Except.error e) =>
         some (Except.error e, { s with containers := s.containers ++ [(k, newStrings)] })
       | some (Except.ok (v, ws1)) =>
         some (Except.ok v,
           writeBackStrings { s with containers := s.containers ++ [(k, newStrings)] }
             [s.containers.length + 1] ws1)) := by
  have h1 : get_containers_ids newStrings [k] c s =
      some (Except.ok [s.containers.length + 1],
        { s with containers := s.containers ++ [(k, newStrings)] }) := by
    unfold get_containers_ids
    rw [bind_def, get_container_id_absent c s k newStrings habs]
    rfl
  unfold strings_locks
  rw [bind_def, h1]
  dsimp only
  rw [bind_def]
  dsimp only [try_get_ids, pure_def]
  rw [lock_all_single]
  dsimp only
  rw [bind_def]
  dsimp only [getS, unwrapStringsAll, unwrapStringsReads]
  rw [idGet_concat]
  dsimp only [newStrings, strings_unwrap]
  cases hcb : cb [{ inner := [], expiration_time := none }] [] with
  | none => rfl
  | some r =>
    cases r with
    | error e => rfl
    | ok p => cases p; rfl

/-- strings_locks with one write key that is present and of string type:
the callback sees the stored container and its update is written back in
place. -/
theorem strings_locks_write1_present (c : Ctx) (s : Storage) (k : Key)
    (cb : List (ContainerImpl Bytes) → List (Option (ContainerImpl Bytes)) →
      Option (Except String (Value × List (ContainerImpl Bytes))))
    (i : Nat) (b : Bytes) (e : Option Nat)
    (hpos : ksIdx? s.containers k = some i)
    (hget : s.containers.get? i = some (k, Container.strings { inner := b, expiration_time := e })) :
    strings_locks [k] [] cb c s =
      (match cb [{ inner := b, expiration_time := e }] [] with
       | none => none
       | some (Except.error er) => some (Except.error er, s)
       | some (Except.ok (v, ws1)) => some (Except.ok v, writeBackStrings s [i + 1] ws1)) := by
  have h1 : get_containers_ids newStrings [k] c s = some (Except.ok [i + 1], s) := by
    unfold get_containers_ids
    rw [bind_def, get_container_id_present c s k newStrings i hpos]
    rfl
  unfold strings_locks
  rw [bind_def, h1]
  dsimp only
  rw [bind_def]
  dsimp only [try_get_ids, pure_def]
  rw [lock_all_single]
  dsimp only
  rw [bind_def]
  dsimp only [getS, unwrapStringsAll, unwrapStringsReads]
  rw [idGet_succ, hget]
  dsimp only [strings_unwrap]
  cases hcb : cb [{ inner := b, expiration_time := e }] [] with
  | none => rfl
  | some r =>
    cases r with
    | error er => rfl
    | ok p => cases p; rfl

/-- The i64 cast is the identity below 2^63. -/
theorem i64_cast_small (m : Nat) (h : m < 2 ^ 63) : i64_cast_of_nat m = (m : Int) := by
  unfold i64_cast_of_nat
  have h2 : m % 2 ^ 64 = m := Nat.mod_eq_of_lt (lt_trans h (by norm_num))
  simp only [h2]
  rw [if_pos h]

/-- keys_expiration_time evaluated: -2 / -1 / converted clamped
duration. -/
theorem keys_expiration_time_eval (c : Ctx) (s : Storage) (k : Key) (f : Nat → Int) :
    keys_expiration_time [Value.buffer k] f c s =
      some (Except.ok
        (match ksFind? s.containers k with
         | none => Value.integer (-2)
         | some cnt =>
           match containerExp cnt with
           | none => Value.integer (-1)
           | some tm => Value.integer (f (tm - c.now))), s) := by
  unfold keys_expiration_time
  rw [bind_def]
  dsimp only [liftE, List.head?, extract_key, extract]
  rw [bind_def]
  dsimp only [getS]
  rw [bind_def]
  dsimp only [askC]
  cases hf : ksFind? s.containers k with
  | none => rfl
  | some cnt =>
    dsimp only
    cases he : containerExp cnt with
    | none => rfl
    | some tm => rfl

/-- set_lock_mut on an absent key: the processor runs on the fresh empty
set. -/
theorem set_lock_mut_absent (c : Ctx) (s : Storage) (k : Key)
    (f : List Value → Option (Except String (Value × List Value)))
    (habs : ksIdx? s.containers k = none) :
    set_lock_mut k f c s =
      (match f [] with
       | none => none
       | some (Except.error e) =>
         some (Except.error e, { s with containers := s.containers ++ [(k, newSet)] })
       | some (Except.ok r) =>
         some (Except.ok r.1,
           idSet { s with containers := s.containers ++ [(k, newSet)] }
             (s.containers.length + 1)
             (Container.set { inner := r.2, expiration_time := none }))) := by
  unfold set_lock_mut
  rw [bind_def, get_container_id_absent c s k newSet habs]
  dsimp only
  rw [bind_def]
  dsimp only [getS]
  rw [idGet_concat]
  dsimp only [newSet, set_unwrap]
  cases hf : f [] with
  | none => rfl
  | some r =>
    cases r with
    | error e => rfl
    | ok p => cases p; rfl

/-- set_lock_mut on a present empty set container. -/
theorem set_lock_mut_present_empty (c : Ctx) (s : Storage) (k : Key)
    (f : List Value → Option (Except String (Value × List Value)))
    (i : Nat) (e : Option Nat)
    (hpos : ksIdx? s.containers k = some i)
    (hget : s.containers.get? i = some (k, Container.set { inner := [], expiration_time := e })) :
    set_lock_mut k f c s =
      (match f [] with
       | none => none
       | some (Except.error er) => some (Except.error er, s)
       | some (Except.ok r) =>
         some (Except.ok r.1,
           idSet s (i + 1) (Container.set { inner := r.2, expiration_time := e }))) := by
  unfold set_lock_mut
  rw [bind_def, get_container_id_present c s k newSet i hpos]
  dsimp only
  rw [bind_def]
  dsimp only [getS]
  rw [idGet_succ, hget]
  dsimp only [set_unwrap]
  cases hf : f [] with
  | none => rfl
  | some r =>
    cases r with
    | error er => rfl
    | ok p => cases p; rfl

/-- Membership after the duplicate-dropping fold of one bucket. -/
theorem mem_foldl_dedup (k : Key) (l : List Key) : ∀ acc : List Key,
    (k ∈ l.foldl (fun a x => if x ∈ a then a else a ++ [x]) acc ↔ k ∈ acc ∨ k ∈ l) := by
  induction l with
  | nil => intro acc; simp
  | cons x xs ih =>
    intro acc
    rw [List.foldl_cons, ih]
    by_cases hx : x ∈ acc
    · rw [if_pos hx]
      constructor
      · rintro (h | h)
        · exact Or.inl h
        · exact Or.inr (List.mem_cons_of_mem x h)
      · rintro (h | h)
        · exact Or.inl h
        · rcases List.mem_cons.mp h with rfl | h2
          · exact Or.inl hx
          · exact Or.inr h2
    · rw [if_neg hx]
      simp only [List.mem_append, List.mem_singleton, List.mem_cons]
      tauto

/-- Membership after folding all buckets. -/
theorem mem_foldl_buckets (k : Key) (bs : List (Nat × List Key)) : ∀ acc : List Key,
    (k ∈ bs.foldl
        (fun acc p => p.2.foldl (fun a x => if x ∈ a then a else a ++ [x]) acc) acc ↔
      k ∈ acc ∨ ∃ p, p ∈ bs ∧ k ∈ p.2) := by
  induction bs with
  | nil => intro acc; simp
  | cons b rest ih =>
    intro acc
    rw [List.foldl_cons, ih, mem_foldl_dedup]
    constructor
    · rintro ((h | h) | ⟨p, hp, hkp⟩)
      · exact Or.inl h
      · exact Or.inr ⟨b, List.mem_cons_self b rest, h⟩
      · exact Or.inr ⟨p, List.mem_cons_of_mem b hp, hkp⟩
    · rintro (h | ⟨p, hp, hkp⟩)
      · exact Or.inl (Or.inl h)
      · rcases List.mem_cons.mp hp with rfl | h2
        · exact Or.inl (Or.inr hkp)
        · exact Or.inr ⟨p, h2, hkp⟩

/-- Membership in the flattened drained buckets. -/
theorem mem_flattenKeys (k : Key) (bs : List (Nat × List Key)) :
    k ∈ flattenKeys bs ↔ ∃ p, p ∈ bs ∧ k ∈ p.2 := by
  unfold flattenKeys
  rw [mem_foldl_buckets]
  simp only [List.not_mem_nil, false_or, List.mem_reverse]

/-- On a strictly sorted queue, splitting at the pivot is filtering. -/
theorem sorted_split (piv : Nat) (q : List (Nat × List Key))
    (h : q.Pairwise (fun a b => a.1 < b.1)) :
    q.takeWhile (fun p => decide (p.1 < piv)) = q.filter (fun p => decide (p.1 < piv)) ∧
    q.dropWhile (fun p => decide (p.1 < piv)) = q.filter (fun p => decide (piv ≤ p.1)) := by
  induction q with
  | nil => exact ⟨rfl, rfl⟩
  | cons a rest ih =>
    rcases List.pairwise_cons.mp h with ⟨ha, hrest⟩
    rcases ih hrest with ⟨iht, ihd⟩
    by_cases hlt : a.1 < piv
    · constructor
      · simp [List.takeWhile_cons, List.filter_cons, hlt, iht]
      · simp [List.dropWhile_cons, List.filter_cons, hlt, Nat.not_le.mpr hlt, ihd]
    · have hge : piv ≤ a.1 := Nat.not_lt.mp hlt
      have hall : ∀ x ∈ rest, piv ≤ x.1 := fun x hx => le_trans hge (le_of_lt (ha x hx))
      have h1 : List.filter (fun p => decide (p.1 < piv)) rest = [] :=
        List.filter_eq_nil_iff.mpr (fun x hx => by simpa using Nat.not_lt.mpr (hall x hx))
      have h2 : List.filter (fun p => decide (piv ≤ p.1)) rest = rest :=
        List.filter_eq_self.mpr (fun x hx => by simpa using hall x hx)
      constructor
      · simp [List.takeWhile_cons, List.filter_cons, hlt, h1]
      · simp [List.dropWhile_cons, List.filter_cons, hlt, hge, h2]

/-! ### Claim theorems -/

/-- C1: in lock_all, a handle requested both as a write and as a read is
claimed to be locked once in write mode with all guards returned in
request order.  On the code, the reads loop inserts its entry into the
same BTreeMap after the writes loop, replacing the write entry, so the
handle is acquired in read mode and the final collection of write guards
unwraps a missing entry and panics: lock_all with handle 1 in both sets
returns no guards at all (none models the panic).  The second conjunct
shows the normal disjoint case for contrast: guards do come back in
request order with absent read slots preserved. -/
theorem c1_lock_all_write_read_overlap :
    lock_all [1] [some 1] = none ∧
    lock_all [2] [some 1, none] = some ([2], [some 1, none]) :=
  ⟨rfl, rfl⟩

/-- C2 (counterexample): STRLEN on a key absent from an empty keyspace
returns Integer 0 as claimed, but the keyspace is changed: an empty
strings container has been inserted under the key, contradicting the
claim that no container is inserted. -/
theorem c2_counterexample :
    execute (Command.mk (ascii "STRLEN") [Value.buffer [107]]) ctx0 storage0 =
      some (Value.integer 0, storage1 [107] newStrings) ∧
    (storage1 [107] newStrings).containers ≠ storage0.containers := by
  refine ⟨rfl, ?_⟩
  intro h
  simp [storage1, storage0] at h

/-- C3: SET key value KEEPTTL on a key holding a string with expiration
5000000 returns Ok, but the container is replaced by a freshly built one
whose expiration_time is None: the keepttl flag only guards the clearing
of a field that is already None on the fresh container, so the prior
expiration is dropped rather than retained. -/
theorem c3_keepttl_drops_expiration :
    execute (Command.mk (ascii "SET")
        [Value.buffer [107], Value.buffer [98], Value.buffer (ascii "KEEPTTL")]) ctx0
        (storage1 [107] (Container.strings { inner := [97], expiration_time := some 5000000 })) =
      some (Value.ok,
        storage1 [107] (Container.strings { inner := [98], expiration_time := none })) ∧
    (none : Option Nat) ≠ some 5000000 := by
  refine ⟨rfl, ?_⟩
  intro h
  cases h

/-- C4: the SETBIT/GETBIT guard is written `offset >= 2^32` in Rust,
where `^` is XOR, so the actual bound is 34: offset 34 (and 100, far
below 2^32) is rejected with the out-of-range error, offset 33 is still
accepted.  For accepted offsets the addressing is as claimed: byte
offset/8 with the most significant bit as bit 0 (bit 7 of buffer [1] is
set, bit 0 is not; bit 33 of a buffer whose fifth byte is 0b0100_0000 is
set, bit 32 is not). -/
theorem c4_bit_offset_bound_is_34 :
    execute (Command.mk (ascii "SETBIT")
        [Value.buffer [107], Value.integer 34, Value.integer 1]) ctx0 storage0 =
      some (Value.error "offset is out of range [0; 2^32)", storage0) ∧
    execute (Command.mk (ascii "GETBIT")
        [Value.buffer [107], Value.integer 100]) ctx0 storage0 =
      some (Value.error "offset is out of range [0; 2^32)", storage0) ∧
    (100 : Nat) < 4294967296 ∧
    execute (Command.mk (ascii "GETBIT")
        [Value.buffer [107], Value.integer 33]) ctx0
        (storage1 [107] (Container.strings { inner := [0, 0, 0, 0, 64], expiration_time := none })) =
      some (Value.bool true,
        storage1 [107] (Container.strings { inner := [0, 0, 0, 0, 64], expiration_time := none })) ∧
    execute (Command.mk (ascii "GETBIT")
        [Value.buffer [107], Value.integer 32]) ctx0
        (storage1 [107] (Container.strings { inner := [0, 0, 0, 0, 64], expiration_time := none })) =
      some (Value.bool false,
        storage1 [107] (Container.strings { inner := [0, 0, 0, 0, 64], expiration_time := none })) ∧
    execute (Command.mk (ascii "GETBIT")
        [Value.buffer [107], Value.integer 7]) ctx0
        (storage1 [107] (Container.strings { inner := [1], expiration_time := none })) =
      some (Value.bool true,
        storage1 [107] (Container.strings { inner := [1], expiration_time := none })) ∧
    execute (Command.mk (ascii "GETBIT")
        [Value.buffer [107], Value.integer 0]) ctx0
        (storage1 [107] (Container.strings { inner := [1], expiration_time := none })) =
      some (Value.bool false,
        storage1 [107] (Container.strings { inner := [1], expiration_time := none })) :=
  ⟨rfl, rfl, by decide, rfl, rfl, rfl, rfl⟩

/-- C5 (counterexample): GETSET on an absent key auto-creates an empty
strings container and returns the swapped-out empty buffer, not Nill as
the claim states. -/
theorem c5_counterexample :
    execute (Command.mk (ascii "GETSET") [Value.buffer [107], Value.buffer [98]]) ctx0 storage0 =
      some (Value.buffer [],
        storage1 [107] (Container.strings { inner := [98], expiration_time := none })) ∧
    Value.buffer [] ≠ Value.nill := by
  refine ⟨rfl, ?_⟩
  intro h
  cases h

/-- C6: SDIFFSTORE D A A on an existing set key A (holding Integer 1)
produces no reply at all: the duplicated key A maps to one container
handle that is passed twice to lock_all as a write, the write-guard
table hands the guard out once, and the second collection unwraps None
and panics (modelled by none), instead of returning Integer 0 and
leaving D an empty set as the claim states. -/
theorem c6_sdiffstore_self_panics :
    execute (Command.mk (ascii "SDIFFSTORE")
        [Value.buffer [100], Value.buffer [97], Value.buffer [97]]) ctx0
      (storage1 [97] (Container.set { inner := [Value.integer 1], expiration_time := none })) =
      none := rfl

/-- C7 (counterexample): a key holding a string whose expiration lies in
the future (timestamp (2^64 - 1) * 1000 microseconds, reachable through
PEXPIREAT with the wrapped u64 of Integer(-1), against a clock at 1000
microseconds) makes PTTL return Integer (-2): the remaining milliseconds
exceed 2^63 and the `as_millis() as i64` cast wraps negative, violating
the claimed non-negativity and even colliding with the absent-key
sentinel. -/
theorem c7_counterexample :
    execute (Command.mk (ascii "PTTL") [Value.buffer [107]]) (ctxAt 1000)
        (storage1 [107]
          (Container.strings { inner := [], expiration_time := some ((2 ^ 64 - 1) * 1000) })) =
      some (Value.integer (-2),
        storage1 [107]
          (Container.strings { inner := [], expiration_time := some ((2 ^ 64 - 1) * 1000) })) ∧
    1000 < (2 ^ 64 - 1) * 1000 ∧ (-2 : Int) < 0 :=
  ⟨rfl, by decide, by decide⟩

/-- C9 (counterexample): execute does not always return a plain Value:
SPOP on an absent key auto-creates an empty set, the random-index
remainder divides by zero and the panic unwinds past the dispatcher, so
no Value is produced (none). -/
theorem c9_counterexample :
    execute (Command.mk (ascii "SPOP") [Value.buffer [107]]) ctx0 storage0 = none := rfl

/-- C5 (amended): GETSET swaps in the new buffer and clears any
expiration; it returns the prior buffer when the key held a string, and
when the key was absent an empty strings container is auto-created by
the write multi-lock, so the returned prior buffer is the empty buffer,
not Nill. -/
theorem c5_getset_amended (c : Ctx) (s : Storage) (k : Key) (v : Bytes) :
    (ksIdx? s.containers k = none →
      strings_getset [Value.buffer k, Value.buffer v] c s =
        some (Except.ok (Value.buffer []),
          { s with containers := s.containers ++
              [(k, Container.strings { inner := v, expiration_time := none })] })) ∧
    (∀ i b e, ksIdx? s.containers k = some i →
      s.containers.get? i = some (k, Container.strings { inner := b, expiration_time := e }) →
      strings_getset [Value.buffer k, Value.buffer v] c s =
        some (Except.ok (Value.buffer b),
          { s with containers :=
              List.set s.containers i (k, Container.strings { inner := v, expiration_time := none }) })) := by
  constructor
  · intro habs
    unfold strings_getset
    rw [bind_def]
    dsimp only [liftE, List.head?, extract_key, extract]
    rw [bind_def]
    dsimp only [liftE, List.head?, List.drop, extract_buffer, extract]
    rw [strings_locks_write1_absent _ _ _ _ habs]
    dsimp only [writeBackStrings, idSet]
    simp only [Nat.add_sub_cancel, get_append_len, set_append_len]
  · intro i b e hpos hget
    unfold strings_getset
    rw [bind_def]
    dsimp only [liftE, List.head?, extract_key, extract]
    rw [bind_def]
    dsimp only [liftE, List.head?, List.drop, extract_buffer, extract]
    rw [strings_locks_write1_present _ _ _ _ _ _ _ hpos hget]
    dsimp only [writeBackStrings, idSet]
    simp only [Nat.add_sub_cancel, hget]

/-- C5 (witness): the amended statement at concrete inputs, once for an
absent key and once for a string key with an expiration. -/
theorem c5_getset_amended_witness :
    strings_getset [Value.buffer [107], Value.buffer [98]] ctx0 storage0 =
      some (Except.ok (Value.buffer []),
        storage1 [107] (Container.strings { inner := [98], expiration_time := none })) ∧
    strings_getset [Value.buffer [107], Value.buffer [99]] ctx0
        (storage1 [107] (Container.strings { inner := [97], expiration_time := some 5 })) =
      some (Except.ok (Value.buffer [97]),
        storage1 [107] (Container.strings { inner := [99], expiration_time := none })) :=
  ⟨(c5_getset_amended ctx0 storage0 [107] [98]).1 rfl,
   (c5_getset_amended ctx0
      (storage1 [107] (Container.strings { inner := [97], expiration_time := some 5 }))
      [107] [99]).2 0 [97] (some 5) rfl rfl⟩

/-- C2 (amended): read-only commands against a key absent from the
keyspace do return the type-appropriate empty result (0, false, empty
array), but on the single-key get-or-create paths the keyspace is
changed: an empty container of the command's type is appended under the
key.  Shown for STRLEN, LLEN, SCARD, GETBIT, BITCOUNT and LRANGE over an
arbitrary prior keyspace. -/
theorem c2_read_paths_create_containers (c : Ctx) (s : Storage) (k : Key)
    (habs : ksIdx? s.containers k = none) :
    strings_len [Value.buffer k] c s =
      some (Except.ok (Value.integer 0),
        { s with containers := s.containers ++ [(k, newStrings)] }) ∧
    list_len [Value.buffer k] c s =
      some (Except.ok (Value.integer 0),
        { s with containers := s.containers ++ [(k, newList)] }) ∧
    set_card [Value.buffer k] c s =
      some (Except.ok (Value.integer 0),
        { s with containers := s.containers ++ [(k, newSet)] }) ∧
    strings_getbit [Value.buffer k, Value.integer 0] c s =
      some (Except.ok (Value.bool false),
        { s with containers := s.containers ++ [(k, newStrings)] }) ∧
    strings_bitcount [Value.buffer k] c s =
      some (Except.ok (Value.integer 0),
        { s with containers := s.containers ++ [(k, newStrings)] }) ∧
    list_range [Value.buffer k, Value.integer 0, Value.integer 0] c s =
      some (Except.ok (Value.array []),
        { s with containers := s.containers ++ [(k, newList)] }) := by
  refine ⟨?_, ?_, ?_, ?_, ?_, ?_⟩
  · unfold strings_len
    rw [bind_def]
    dsimp only [liftE, List.head?, extract_key, extract]
    rw [strings_lock_absent _ _ _ _ habs]
    rfl
  · unfold list_len
    rw [bind_def]
    dsimp only [liftE, List.head?, extract_key, extract]
    rw [list_lock_absent _ _ _ _ habs]
    rfl
  · unfold set_card
    rw [bind_def]
    dsimp only [liftE, List.head?, extract_key, extract]
    rw [set_lock_absent _ _ _ _ habs]
    rfl
  · unfold strings_getbit
    rw [bind_def]
    dsimp only [liftE, List.head?, extract_key, extract]
    rw [bind_def]
    dsimp only [liftE, List.drop, List.head?, extract_integer, extract]
    rw [if_neg (by decide : ¬ usize_of_i64 0 ≥ 34)]
    rw [strings_lock_absent _ _ _ _ habs]
    rfl
  · unfold strings_bitcount
    rw [bind_def]
    dsimp only [liftE, List.head?, List.drop, extract_key, extract_integer, extract]
    rw [strings_lock_absent _ _ _ _ habs]
    rfl
  · unfold list_range
    rw [bind_def]
    dsimp only [liftE, List.head?, List.drop, extract_key, extract]
    rw [bind_def]
    dsimp only [liftE, List.head?, List.drop, extract_index, extract]
    rw [if_pos (by decide : (0 : Int) ≤ 0)]
    dsimp only
    rw [bind_def]
    dsimp only [liftE, List.head?, List.drop, extract_index, extract]
    rw [list_lock_absent _ _ _ _ habs]
    rfl

/-- C7 (amended): TTL and PTTL return Integer -2 when the key is absent
and Integer -1 when it has no expiration; otherwise they return the
remaining duration (clamped to zero when the expiration is past) in the
requested unit, cast through `as i64`: the result is zero for past
expirations and non-negative whenever the remaining milliseconds fit in
a signed 64-bit integer, but an expiration further than 2^63
milliseconds ahead wraps negative through the cast. -/
theorem c7_ttl_pttl_amended (c : Ctx) (s : Storage) (k : Key) :
    (ksFind? s.containers k = none →
      keys_ttl [Value.buffer k] c s = some (Except.ok (Value.integer (-2)), s) ∧
      keys_pttl [Value.buffer k] c s = some (Except.ok (Value.integer (-2)), s)) ∧
    (∀ cnt, ksFind? s.containers k = some cnt → containerExp cnt = none →
      keys_ttl [Value.buffer k] c s = some (Except.ok (Value.integer (-1)), s) ∧
      keys_pttl [Value.buffer k] c s = some (Except.ok (Value.integer (-1)), s)) ∧
    (∀ cnt tm, ksFind? s.containers k = some cnt → containerExp cnt = some tm →
      keys_ttl [Value.buffer k] c s =
        some (Except.ok (Value.integer (i64_cast_of_nat ((tm - c.now) / 1000000))), s) ∧
      keys_pttl [Value.buffer k] c s =
        some (Except.ok (Value.integer (i64_cast_of_nat ((tm - c.now) / 1000))), s) ∧
      (tm ≤ c.now →
        i64_cast_of_nat ((tm - c.now) / 1000000) = 0 ∧
        i64_cast_of_nat ((tm - c.now) / 1000) = 0) ∧
      ((tm - c.now) / 1000 < 2 ^ 63 →
        0 ≤ i64_cast_of_nat ((tm - c.now) / 1000000) ∧
        0 ≤ i64_cast_of_nat ((tm - c.now) / 1000))) := by
  refine ⟨?_, ?_, ?_⟩
  · intro habs
    constructor
    · rw [show keys_ttl [Value.buffer k] c s = _ from keys_expiration_time_eval c s k _]
      rw [habs]
    · rw [show keys_pttl [Value.buffer k] c s = _ from keys_expiration_time_eval c s k _]
      rw [habs]
  · intro cnt hf he
    constructor
    · rw [show keys_ttl [Value.buffer k] c s = _ from keys_expiration_time_eval c s k _]
      rw [hf]
      dsimp only
      rw [he]
    · rw [show keys_pttl [Value.buffer k] c s = _ from keys_expiration_time_eval c s k _]
      rw [hf]
      dsimp only
      rw [he]
  · intro cnt tm hf he
    refine ⟨?_, ?_, ?_, ?_⟩
    · rw [show keys_ttl [Value.buffer k] c s = _ from keys_expiration_time_eval c s k _]
      rw [hf]
      dsimp only
      rw [he]
    · rw [show keys_pttl [Value.buffer k] c s = _ from keys_expiration_time_eval c s k _]
      rw [hf]
      dsimp only
      rw [he]
    · intro hpast
      rw [Nat.sub_eq_zero_of_le hpast]
      exact ⟨rfl, rfl⟩
    · intro hfit
      have hsec : (tm - c.now) / 1000000 = (tm - c.now) / 1000 / 1000 := by
        rw [Nat.div_div_eq_div_mul]
      have hsecfit : (tm - c.now) / 1000000 < 2 ^ 63 :=
        hsec ▸ lt_of_le_of_lt (Nat.div_le_self _ 1000) hfit
      rw [i64_cast_small _ hfit, i64_cast_small _ hsecfit]
      exact ⟨Int.ofNat_nonneg _, Int.ofNat_nonneg _⟩

/-- C7 (witness): the amended statement at concrete inputs: an absent
key, and a key expiring 5000000 microseconds after a clock at zero. -/
theorem c7_ttl_pttl_amended_witness :
    keys_ttl [Value.buffer [107]] ctx0 storage0 =
      some (Except.ok (Value.integer (-2)), storage0) ∧
    keys_pttl [Value.buffer [107]] ctx0
        (storage1 [107] (Container.strings { inner := [], expiration_time := some 5000000 })) =
      some (Except.ok (Value.integer (i64_cast_of_nat ((5000000 - ctx0.now) / 1000))),
        storage1 [107] (Container.strings { inner := [], expiration_time := some 5000000 })) :=
  ⟨((c7_ttl_pttl_amended ctx0 storage0 [107]).1 rfl).1,
   ((c7_ttl_pttl_amended ctx0
        (storage1 [107] (Container.strings { inner := [], expiration_time := some 5000000 }))
        [107]).2.2
      (Container.strings { inner := [], expiration_time := some 5000000 }) 5000000
      rfl rfl).2.1⟩

/-- C8: pop_now_and_expired_keys on a queue sorted strictly by
timestamp: the pivot is now + 1 microsecond, the drained keys are
exactly the keys of buckets with timestamp strictly before the pivot,
and the queue keeps exactly the entries with timestamp at or after the
pivot. -/
theorem c8_drain_due (now : Nat) (q : List (Nat × List Key))
    (h : q.Pairwise (fun a b => a.1 < b.1)) :
    (pop_now_and_expired_keys now q).1.1 = now + 1 ∧
    (∀ k, k ∈ (pop_now_and_expired_keys now q).1.2 ↔
      ∃ p, p ∈ q ∧ p.1 < now + 1 ∧ k ∈ p.2) ∧
    (pop_now_and_expired_keys now q).2 = q.filter (fun p => decide (now + 1 ≤ p.1)) := by
  obtain ⟨ht, hd⟩ := sorted_split (now + 1) q h
  refine ⟨rfl, ?_, hd⟩
  intro k
  show k ∈ flattenKeys (q.takeWhile fun p => decide (p.1 < now + 1)) ↔ _
  rw [ht, mem_flattenKeys]
  constructor
  · rintro ⟨p, hp, hkp⟩
    rcases List.mem_filter.mp hp with ⟨hq, hlt⟩
    exact ⟨p, hq, by simpa using hlt, hkp⟩
  · rintro ⟨p, hq, hlt, hkp⟩
    exact ⟨p, List.mem_filter.mpr ⟨hq, by simpa using hlt⟩, hkp⟩

/-- C8 (witness): the statement at a concrete sorted queue: with the
clock at 5, the bucket at 5 is drained (5 < 6) and the bucket at 10
stays. -/
theorem c8_drain_due_witness :
    (pop_now_and_expired_keys 5 [(5, [[107]]), (10, [[108]])]).1.1 = 5 + 1 ∧
    ([107] ∈ (pop_now_and_expired_keys 5 [(5, [[107]]), (10, [[108]])]).1.2 ↔
      ∃ p, p ∈ [(5, [[107]]), (10, [[108]])] ∧ p.1 < 5 + 1 ∧ [107] ∈ p.2) ∧
    (pop_now_and_expired_keys 5 [(5, [[107]]), (10, [[108]])]).2 =
      [(5, [[107]]), (10, [[108]])].filter (fun p => decide (5 + 1 ≤ p.1)) :=
  ⟨(c8_drain_due 5 [(5, [[107]]), (10, [[108]])] (by simp)).1,
   (c8_drain_due 5 [(5, [[107]]), (10, [[108]])] (by simp)).2.1 [107],
   (c8_drain_due 5 [(5, [[107]]), (10, [[108]])] (by simp)).2.2⟩

/-- C9 (amended): the dispatcher is a flat lookup on the uppercased
name: a name outside the table yields Error("Unsupported command") with
the state untouched, and when a handler is found its Err(text) is
wrapped as Value::Error(text) and its Ok(v) passed through; however a
handler that panics produces no Value at all and the panic crosses the
dispatcher (none on both sides). -/
theorem c9_execute_amended (c : Ctx) (s : Storage) (cmd : Command) :
    (toUpperBytes cmd.command ∉ supportedNames →
      execute cmd c s = some (Value.error "Unsupported command", s)) ∧
    (∀ nm h, handlerTable.find? (fun p => p.1 == toUpperBytes cmd.command) = some (nm, h) →
      ((∀ e s1, h cmd.arguments c s = some (Except.error e, s1) →
          execute cmd c s = some (Value.error e, s1)) ∧
       (∀ v s1, h cmd.arguments c s = some (Except.ok v, s1) →
          execute cmd c s = some (v, s1)) ∧
       (h cmd.arguments c s = none → execute cmd c s = none))) := by
  constructor
  · intro hnot
    have hfind : handlerTable.find? (fun p => p.1 == toUpperBytes cmd.command) = none := by
      rw [List.find?_eq_none]
      intro x hx hbeq
      have hx1 : x.1 = toUpperBytes cmd.command := by simpa using hbeq
      exact hnot (hx1 ▸ List.mem_map_of_mem Prod.fst hx)
    unfold execute
    dsimp only
    rw [hfind]
  · intro nm h hfind
    refine ⟨?_, ?_, ?_⟩
    · intro e s1 hrun
      unfold execute
      dsimp only
      rw [hfind]
      dsimp only
      rw [hrun]
    · intro v s1 hrun
      unfold execute
      dsimp only
      rw [hfind]
      dsimp only
      rw [hrun]
    · intro hrun
      unfold execute
      dsimp only
      rw [hfind]
      dsimp only
      rw [hrun]

/-- C9 (amended, witness): the unknown name FOOBAR produces the
unsupported-command error, and the STRLEN handler's missing-argument
Err is wrapped as a Value::Error by the dispatcher. -/
theorem c9_execute_amended_witness :
    execute (Command.mk (ascii "FOOBAR") []) ctx0 storage0 =
      some (Value.error "Unsupported command", storage0) ∧
    execute (Command.mk (ascii "STRLEN") []) ctx0 storage0 =
      some (Value.error "Not enough arguments", storage0) :=
  ⟨(c9_execute_amended ctx0 storage0 (Command.mk (ascii "FOOBAR") [])).1 (by decide),
   (((c9_execute_amended ctx0 storage0 (Command.mk (ascii "STRLEN") [])).2
      (ascii "STRLEN") strings_len rfl).1 "Not enough arguments" storage0 rfl)⟩

/-- C10: SPOP with a requested count of at least 1 against a key whose
set container is empty, or against an absent key (whose container is
freshly auto-created empty), never returns a value: the first loop
iteration computes rand() % 0, which panics in Rust (none in the
model); the same holds for the default count of 1 when no count
argument is given. -/
theorem c10_spop_empty_panics (c : Ctx) (s : Storage) (k : Key) (n : Int)
    (hn : 1 ≤ n)
    (hkey : ksIdx? s.containers k = none ∨
      ∃ i e, ksIdx? s.containers k = some i ∧
        s.containers.get? i = some (k, Container.set { inner := [], expiration_time := e })) :
    set_pop [Value.buffer k, Value.integer n] c s = none ∧
    set_pop [Value.buffer k] c s = none := by
  have hloop : ∀ it acc, set_pop_loop c it n.toNat [] acc = none := by
    intro it acc
    cases hnt : n.toNat with
    | zero => omega
    | succ m => rfl
  constructor
  · unfold set_pop
    rw [bind_def]
    dsimp only [liftE, List.head?, List.drop, extract_key, extract_index, extract]
    rw [if_pos (by omega : (0 : Int) ≤ n)]
    rw [bind_def]
    dsimp only [askC]
    rcases hkey with habs | ⟨i, e, hpos, hget⟩
    · rw [set_lock_mut_absent _ _ _ _ habs]
      rw [hloop]
    · rw [set_lock_mut_present_empty _ _ _ _ _ _ hpos hget]
      rw [hloop]
  · unfold set_pop
    rw [bind_def]
    dsimp only [liftE, List.head?, List.drop, extract_key, extract_index, extract]
    rw [bind_def]
    dsimp only [askC]
    rcases hkey with habs | ⟨i, e, hpos, hget⟩
    · rw [set_lock_mut_absent _ _ _ _ habs]
      rfl
    · rw [set_lock_mut_present_empty _ _ _ _ _ _ hpos hget]
      rfl

/-- C10 (witness): SPOP with count 2 and with the default count against
an absent key over the empty keyspace returns no value. -/
theorem c10_spop_empty_panics_witness :
    set_pop [Value.buffer [107], Value.integer 2] ctx0 storage0 = none ∧
    set_pop [Value.buffer [107]] ctx0 storage0 = none :=
  ⟨(c10_spop_empty_panics ctx0 storage0 [107] 2 (by decide) (Or.inl rfl)).1,
   (c10_spop_empty_panics ctx0 storage0 [107] 2 (by decide) (Or.inl rfl)).2⟩

/-- C2 (witness): the amended statement at the concrete key "k" over the
empty keyspace. -/
theorem c2_read_paths_create_containers_witness :
    strings_len [Value.buffer [107]] ctx0 storage0 =
      some (Except.ok (Value.integer 0),
        { storage0 with containers := storage0.containers ++ [([107], newStrings)] }) ∧
    list_len [Value.buffer [107]] ctx0 storage0 =
      some (Except.ok (Value.integer 0),
        { storage0 with containers := storage0.containers ++ [([107], newList)] }) ∧
    set_card [Value.buffer [107]] ctx0 storage0 =
      some (Except.ok (Value.integer 0),
        { storage0 with containers := storage0.containers ++ [([107], newSet)] }) ∧
    strings_getbit [Value.buffer [107], Value.integer 0] ctx0 storage0 =
      some (Except.ok (Value.bool false),
        { storage0 with containers := storage0.containers ++ [([107], newStrings)] }) ∧
    strings_bitcount [Value.buffer [107]] ctx0 storage0 =
      some (Except.ok (Value.integer 0),
        { storage0 with containers := storage0.containers ++ [([107], newStrings)] }) ∧
    list_range [Value.buffer [107], Value.integer 0, Value.integer 0] ctx0 storage0 =
      some (Except.ok (Value.array []),
        { storage0 with containers := storage0.containers ++ [([107], newList)] }) :=
  c2_read_paths_create_containers ctx0 storage0 [107] rfl

end Radish
